import Mathlib

/-! The RPC test harness, yb/rpc/rpc-test-base.cc.

A shallow embedding of the RPC test harness of `src/yb/rpc/rpc-test-base.cc`:
the raw `GenericCalculatorService`, the typed `CalculatorService`, the
`TestServer` life cycle and the driver routines of `RpcTestBase`.

Handlers are embedded as functions from their inputs to the list of effects
they perform, in program order.  Collaborators that live outside the file
(protobuf parsing, the random generator, the messenger, address parsing, the
outbound proxy) are parameters of the embedding.  `LOG(INFO)`, `VLOG` and
`TRACE` lines are not recorded.
-/

namespace yb.rpc

/-! ## Data model -/

/-- Bytes of a `Slice`, a `RefCntBuffer` or a `faststring`. -/
abbrev Slice := List UInt8

/-- Codes of `Status` that the file produces or inspects. -/
inductive StatusCode where
  | OK
  | InvalidArgument
  | NetworkError
  | ServiceUnavailable
  | RemoteError
  | TimedOut
  | RuntimeError
  deriving DecidableEq, Repr

/-- A `Status`: a code, a message and an optional second message. -/
structure Status where
  code : StatusCode
  msg : String
  msg2 : String
  deriving DecidableEq, Repr

/-- `Status::OK()`. -/
def Status.OK : Status := ⟨StatusCode.OK, "", ""⟩

/-- `Status::ok()`. -/
def Status.ok (s : Status) : Bool := s.code == StatusCode.OK

/-- `Status::IsServiceUnavailable()`. -/
def Status.IsServiceUnavailable (s : Status) : Bool := s.code == StatusCode.ServiceUnavailable

/-- The `ErrorStatusPB` codes passed to `InboundCall::RespondFailure`. -/
inductive ErrorStatusPB where
  | ERROR_NO_SUCH_METHOD
  | ERROR_INVALID_REQUEST
  | ERROR_APPLICATION
  deriving DecidableEq, Repr

/-- `AddRequestPB`. -/
structure AddRequestPB where
  x : Nat
  y : Nat
  deriving DecidableEq, Repr

/-- `SleepRequestPB`. -/
structure SleepRequestPB where
  sleep_micros : Nat
  deferred : Bool
  return_app_error : Bool
  client_timeout_defined : Bool
  deriving DecidableEq, Repr

/-- `SendStringsRequestPB`. -/
structure SendStringsRequestPB where
  random_seed : Nat
  sizes : List Nat
  deriving DecidableEq, Repr

/-- `ForwardRequestPB`: both fields are optional (`has_host`, `has_port`). -/
structure ForwardRequestPB where
  host : Option String
  port : Option Nat
  deriving DecidableEq, Repr

/-- `ForwardResponsePB`: an optional name. -/
structure ForwardResponsePB where
  name : Option String
  deriving DecidableEq, Repr

/-- The accessor `ForwardResponsePB::name()`: the empty string when unset. -/
def ForwardResponsePB.getName (r : ForwardResponsePB) : String := r.name.getD ""

/-- An `Endpoint`: the parsed address and the port, a 16-bit value. -/
structure Endpoint where
  address : String
  port : Nat
  deriving DecidableEq, Repr

/-- A `MonoTime`: `MonoTime::Max()` or a point in time. -/
inductive MonoTime where
  | Max
  | At (nanos : Nat)
  deriving DecidableEq, Repr

/-- `MonoTime::Equals`. -/
def MonoTime.Equals (a b : MonoTime) : Bool := a == b

/-- `UserCredentials` of a call: the real user and an optional effective user. -/
structure UserCredentials where
  real_user : String
  effective_user : Option String
  deriving DecidableEq, Repr

/-- A request message of either service. -/
inductive RequestPB where
  | Add (req : AddRequestPB)
  | Sleep (req : SleepRequestPB)
  | SendStrings (req : SendStringsRequestPB)
  deriving DecidableEq, Repr

/-- A response message, as it stands when the handler responds. -/
inductive ResponsePB where
  | Add (result : Nat)
  | Sleep
  | SendStrings (sidecars : List Nat)
  | Echo (data : String)
  | WhoAmI (real_user : String) (effective_user : Option String) (address : String)
  | DiffPackage
  | Ping (time : Nat)
  | Disconnect
  | Forward (name : Option String)
  | Empty
  deriving DecidableEq, Repr

/-- The effects a handler performs on its call, its context and its surroundings. -/
inductive Effect where
  /-- `RespondSuccess` with the response message. -/
  | RespondSuccess (resp : ResponsePB)
  /-- `RespondFailure`; the raw service passes an `ErrorStatusPB` code, the typed one none. -/
  | RespondFailure (error_code : Option ErrorStatusPB) (status : Status)
  /-- `RespondApplicationError` with the message and the `CalculatorError` extra data. -/
  | RespondApplicationError (message : String) (extra_error_data : String)
  /-- `SleepFor(MonoDelta::FromMicroseconds(micros))`. -/
  | SleepFor (micros : Nat)
  /-- `RandomString(dest, n, rng)`. -/
  | RandomString (n : Nat)
  /-- `AddRpcSidecar(car, &idx)` and the status it returned. -/
  | AddRpcSidecar (car : Slice) (status : Status)
  /-- `LOG(FATAL)`: the process aborts. -/
  | LogFatal (param : Slice)
  /-- `context.CloseConnection()`. -/
  | CloseConnection
  /-- `PANIC_RPC(&context, message)`. -/
  | Panic (message : String)
  /-- `std::thread(...).detach()`: the effects after it are those of the new thread. -/
  | DetachThread
  /-- `YB_ASSERT_TRUE(messenger)` failed: a failure is recorded and the handler
  goes no further ("fail explicitly if the referent no longer exists"). -/
  | AssertTrueFailed
  /-- `proxy.Forward(forwarded_req, ...)` on a proxy for the endpoint. -/
  | ProxyForward (endpoint : Endpoint) (forwarded_req : ForwardRequestPB)
  deriving DecidableEq, Repr

/-- Whether the effect is one of the three respond operations. -/
def Effect.isRespond : Effect → Bool
  | Effect.RespondSuccess _ => true
  | Effect.RespondFailure _ _ => true
  | Effect.RespondApplicationError _ _ => true
  | _ => false

/-- Whether the effect is `RespondSuccess`. -/
def Effect.isRespondSuccess : Effect → Bool
  | Effect.RespondSuccess _ => true
  | _ => false

/-- Whether the effect is `SleepFor`. -/
def Effect.isSleepFor : Effect → Bool
  | Effect.SleepFor _ => true
  | _ => false

/-- Whether the effect is `CloseConnection`. -/
def Effect.isCloseConnection : Effect → Bool
  | Effect.CloseConnection => true
  | _ => false

/-- Whether the effect is an outbound `proxy.Forward` call. -/
def Effect.isProxyForward : Effect → Bool
  | Effect.ProxyForward _ _ => true
  | _ => false

/-- The number of respond operations in a run. -/
def respondCount (run : List Effect) : Nat := run.countP Effect.isRespond

/-- The sizes of the `RandomString` calls of a run, in order. -/
def generatedSizes (run : List Effect) : List Nat :=
  run.filterMap fun e =>
    match e with
    | Effect.RandomString n => some n
    | _ => none

/-- The statuses returned by the `AddRpcSidecar` calls of a run, in order. -/
def sidecarStatuses (run : List Effect) : List Status :=
  run.filterMap fun e =>
    match e with
    | Effect.AddRpcSidecar _ status => some status
    | _ => none

/-- The buffers the run attached: those of its `AddRpcSidecar` calls that returned OK. -/
def attachedSidecars (run : List Effect) : List Slice :=
  run.filterMap fun e =>
    match e with
    | Effect.AddRpcSidecar car status => if status.ok then some car else none
    | _ => none

/-! ## Collaborators outside the file -/

/-- Protobuf wire encoding: `ParseFromArray` of the three raw request types,
`InitializationErrorString` after a failed parse, and the serialisation the
client proxy applies to a request. -/
structure Protobuf where
  parseAdd : Slice → Option AddRequestPB
  parseSleep : Slice → Option SleepRequestPB
  parseSendStrings : Slice → Option SendStringsRequestPB
  initializationErrorString : Slice → String
  serialize : RequestPB → Slice

/-- Modelled from the spec: the deterministic payload generator of §4.1
(`Random` and `RandomString` of yb/util, not among the sources).  `Random seed`
builds the generator state and `RandomString n r` yields the `n` bytes written
to the destination together with the advanced state; it is a pure function of
the seed and of the order and lengths in which output is consumed. -/
structure RandomGen where
  State : Type
  Random : Nat → State
  RandomString : Nat → State → Slice × State
  RandomString_size : ∀ n r, (RandomString n r).1.length = n

/-- What the raw service is run against: the wire encoding, the generator,
the bit width of the `AddRequestPB` and `AddResponsePB` integer fields (their
declaration, rtest.proto, is not among the sources), and the transport's
decision on each `AddRpcSidecar` call, given the sidecars already attached. -/
structure Env where
  pb : Protobuf
  rng : RandomGen
  bits : Nat
  sidecarPolicy : List Slice → Slice → Status

/-- Modelled from the spec: `YBInboundCall::AddRpcSidecar` (not among the
sources), the "attachment (sidecar) storage addressed by integer index": when
the transport accepts the buffer it is appended to the call's sidecars and its
index, the number of sidecars attached before it, is stored in `idx`; otherwise
the status is returned and nothing changes.  Returns the status, `idx` and the
call's sidecars. -/
def YBInboundCall.AddRpcSidecar (policy : List Slice → Slice → Status)
    (sidecars_ : List Slice) (car : Slice) (idx : Nat) : Status × Nat × List Slice :=
  let status := policy sidecars_ car
  if status.ok then (status, sidecars_.length, sidecars_ ++ [car])
  else (status, idx, sidecars_)

/-- An incoming call of the raw service: `method_name()` and `serialized_request()`. -/
structure InboundCall where
  method_name : String
  serialized_request : Slice
  deriving DecidableEq, Repr

/-! ## GenericCalculatorService -/

namespace GenericCalculatorService

def kFullServiceName : String := "yb.rpc.GenericCalculatorService"
def kAddMethodName : String := "Add"
def kSleepMethodName : String := "Sleep"
def kSendStringsMethodName : String := "SendStrings"

/-- `GenericCalculatorService::DoAdd`: the sum is computed in the unsigned
arithmetic of the request fields, `env.bits` wide. -/
def DoAdd (env : Env) (incoming : InboundCall) : List Effect :=
  let param := incoming.serialized_request
  match env.pb.parseAdd param with
  | none => [Effect.LogFatal param]
  | some req => [Effect.RespondSuccess (ResponsePB.Add ((req.x + req.y) % 2 ^ env.bits))]

/-- The `for (auto size : req.sizes())` loop of `DoSendStrings` and the final
`RespondSuccess`: the sizes left, the generator `r`, the call's sidecars and
the indices added to `resp` so far. -/
def DoSendStrings.loop (env : Env) :
    List Nat → env.rng.State → List Slice → List Nat → List Effect
  | [], _, _, resp_sidecars => [Effect.RespondSuccess (ResponsePB.SendStrings resp_sidecars)]
  | size :: rest, r, sidecars_, resp_sidecars =>
    let filled := env.rng.RandomString size r
    let added := YBInboundCall.AddRpcSidecar env.sidecarPolicy sidecars_ filled.1 0
    Effect.RandomString size :: Effect.AddRpcSidecar filled.1 added.1 ::
      (if !added.1.ok then
        [Effect.RespondFailure (some ErrorStatusPB.ERROR_APPLICATION) added.1]
      else
        DoSendStrings.loop env rest filled.2 added.2.2 (resp_sidecars ++ [added.2.1]))

/-- `GenericCalculatorService::DoSendStrings`. -/
def DoSendStrings (env : Env) (incoming : InboundCall) : List Effect :=
  let param := incoming.serialized_request
  match env.pb.parseSendStrings param with
  | none => [Effect.LogFatal param]
  | some req => DoSendStrings.loop env req.sizes (env.rng.Random req.random_seed) [] []

/-- `GenericCalculatorService::DoSleep`. -/
def DoSleep (env : Env) (incoming : InboundCall) : List Effect :=
  let param := incoming.serialized_request
  match env.pb.parseSleep param with
  | none =>
    [Effect.RespondFailure (some ErrorStatusPB.ERROR_INVALID_REQUEST)
      ⟨StatusCode.InvalidArgument, "Couldn't parse pb", env.pb.initializationErrorString param⟩]
  | some req => [Effect.SleepFor req.sleep_micros, Effect.RespondSuccess ResponsePB.Sleep]

/-- The handlers `Handle` chooses between. -/
inductive Method where
  | DoAdd
  | DoSleep
  | DoSendStrings
  deriving DecidableEq, Repr

/-- The `if`/`else if` chain of `GenericCalculatorService::Handle` on
`incoming->method_name()`: the handler it invokes, `none` for the final `else`. -/
def Handle.method (incoming : InboundCall) : Option Method :=
  if incoming.method_name = kAddMethodName then some Method.DoAdd
  else if incoming.method_name = kSleepMethodName then some Method.DoSleep
  else if incoming.method_name = kSendStringsMethodName then some Method.DoSendStrings
  else none

/-- `GenericCalculatorService::Handle`. -/
def Handle (env : Env) (incoming : InboundCall) : List Effect :=
  match Handle.method incoming with
  | some Method.DoAdd => DoAdd env incoming
  | some Method.DoSleep => DoSleep env incoming
  | some Method.DoSendStrings => DoSendStrings env incoming
  | none =>
    [Effect.RespondFailure (some ErrorStatusPB.ERROR_NO_SUCH_METHOD)
      ⟨StatusCode.InvalidArgument, "bad method", ""⟩]

end GenericCalculatorService

/-! ## CalculatorService -/

/-- A `Messenger`, as far as the handlers tell one from another. -/
structure Messenger where
  name : String
  deriving DecidableEq, Repr

/-- What a typed handler reads from its `RpcContext`: `GetClientDeadline()`
(`MonoTime::Max()` when the call carries no deadline), `user_credentials()` and
`yb::ToString(remote_address())`. -/
structure RpcContext where
  client_deadline : MonoTime
  user_credentials : UserCredentials
  remote_address : String
  deriving DecidableEq, Repr

/-- The network as `CalculatorService::Forward` uses it:
`IpAddress::from_string(host, ec)`, giving the address or the message of `ec`,
and the outcome of `CalculatorServiceProxy(messenger, endpoint).Forward`. -/
structure Network where
  from_string : String → Except String String
  Forward : Messenger → Endpoint → ForwardRequestPB → Status × ForwardResponsePB

/-- The members of `CalculatorService`: `name_` and the weak pointer
`messenger_` (`none` when `lock()` yields no messenger). -/
structure CalculatorService where
  name_ : String
  messenger_ : Option Messenger
  deriving DecidableEq, Repr

namespace CalculatorService

/-- `CalculatorService::Add`, in the unsigned arithmetic of the fields, `bits` wide. -/
def Add (bits : Nat) (req : AddRequestPB) (_context : RpcContext) : List Effect :=
  [Effect.RespondSuccess (ResponsePB.Add ((req.x + req.y) % 2 ^ bits))]

/-- The private `CalculatorService::DoSleep`. -/
def DoSleep (req : SleepRequestPB) (_context : RpcContext) : List Effect :=
  [Effect.SleepFor req.sleep_micros, Effect.RespondSuccess ResponsePB.Sleep]

/-- `CalculatorService::Sleep`. -/
def Sleep (req : SleepRequestPB) (context : RpcContext) : List Effect :=
  if req.return_app_error then
    [Effect.RespondApplicationError "Got some error" "some application-specific error data"]
  else if req.client_timeout_defined && context.client_deadline.Equals MonoTime.Max then
    [Effect.RespondApplicationError "Missing required timeout" "Timeout not set"]
  else if req.deferred then
    Effect.DetachThread :: DoSleep req context
  else
    DoSleep req context

/-- `CalculatorService::Echo`. -/
def Echo (data : String) (_context : RpcContext) : List Effect :=
  [Effect.RespondSuccess (ResponsePB.Echo data)]

/-- `CalculatorService::WhoAmI`. -/
def WhoAmI (context : RpcContext) : List Effect :=
  let creds := context.user_credentials
  [Effect.RespondSuccess
    (ResponsePB.WhoAmI creds.real_user
      (if creds.effective_user.isSome then creds.effective_user else none)
      context.remote_address)]

/-- `CalculatorService::TestArgumentsInDiffPackage`. -/
def TestArgumentsInDiffPackage (_context : RpcContext) : List Effect :=
  [Effect.RespondSuccess ResponsePB.DiffPackage]

/-- `CalculatorService::Panic`. -/
def Panic (_context : RpcContext) : List Effect :=
  [Effect.Panic "Test method panicking!"]

/-- `CalculatorService::Ping`; `now` is `MonoTime::Now(MonoTime::FINE).ToUint64()`. -/
def Ping (now : Nat) (_context : RpcContext) : List Effect :=
  [Effect.RespondSuccess (ResponsePB.Ping now)]

/-- `CalculatorService::Disconnect`. -/
def Disconnect (_context : RpcContext) : List Effect :=
  [Effect.CloseConnection, Effect.RespondSuccess ResponsePB.Disconnect]

/-- `CalculatorService::Forward`.  The `Endpoint` constructor takes the port as
a 16-bit value, to which `req->port()` is narrowed. -/
def Forward (net : Network) (self : CalculatorService) (req : ForwardRequestPB)
    (_context : RpcContext) : List Effect :=
  if !req.host.isSome || !req.port.isSome then
    [Effect.RespondSuccess (ResponsePB.Forward (some self.name_))]
  else
    match self.messenger_ with
    | none => [Effect.AssertTrueFailed]
    | some messenger =>
      match net.from_string (req.host.getD "") with
      | Except.error ec =>
        [Effect.RespondFailure none ⟨StatusCode.NetworkError, "Invalid host: " ++ ec, ""⟩]
      | Except.ok address =>
        let endpoint : Endpoint := ⟨address, req.port.getD 0 % 2 ^ 16⟩
        let forwarded_req : ForwardRequestPB := ⟨none, none⟩
        let call := net.Forward messenger endpoint forwarded_req
        Effect.ProxyForward endpoint forwarded_req ::
          (if !call.1.ok then [Effect.RespondFailure none call.1]
           else [Effect.RespondSuccess (ResponsePB.Forward (some call.2.getName))])

end CalculatorService

/-! ## TestServer -/

/-- The steps of the `TestServer` shutdown paths. -/
inductive ShutdownStep where
  /-- `thread_pool_.Shutdown()`. -/
  | ThreadPoolShutdown
  /-- `messenger_->UnregisterService(service_name_)`. -/
  | UnregisterService
  /-- `EXPECT_OK` on a status that is not OK: a failure is recorded, the path goes on. -/
  | ExpectOkFailed
  /-- `ASSERT_OK` on a status that is not OK: a failure is recorded, the function returns. -/
  | AssertOkFailed
  /-- `service_pool_->Shutdown()`. -/
  | ServicePoolShutdown
  /-- `messenger_->Shutdown()`. -/
  | MessengerShutdown
  deriving DecidableEq, Repr

/-- Whether the step records a test failure. -/
def ShutdownStep.isFailure : ShutdownStep → Bool
  | ShutdownStep.ExpectOkFailed => true
  | ShutdownStep.AssertOkFailed => true
  | _ => false

/-- The members the shutdown paths test: whether `service_pool_` and
`messenger_` are set. -/
structure TestServer where
  service_pool_ : Bool
  messenger_ : Bool
  deriving DecidableEq, Repr

namespace TestServer

/-- The members as the constructor `TestServer::TestServer` leaves them. -/
def constructed : TestServer := ⟨true, true⟩

/-- `TestServer::~TestServer`; `unregister` is what `UnregisterService` returns. -/
def destructor (self : TestServer) (unregister : Status) : List ShutdownStep :=
  ShutdownStep.ThreadPoolShutdown ::
    ((if self.service_pool_ then
        ShutdownStep.UnregisterService ::
          ((if !unregister.IsServiceUnavailable then
              (if unregister.ok then [] else [ShutdownStep.ExpectOkFailed])
            else []) ++
          [ShutdownStep.ServicePoolShutdown])
      else []) ++
    (if self.messenger_ then [ShutdownStep.MessengerShutdown] else []))

/-- `TestServer::Shutdown`; `unregister` is what `UnregisterService` returns. -/
def Shutdown (_self : TestServer) (unregister : Status) : List ShutdownStep :=
  ShutdownStep.UnregisterService ::
    (if unregister.ok then [ShutdownStep.ServicePoolShutdown, ShutdownStep.MessengerShutdown]
     else [ShutdownStep.AssertOkFailed])

/-- The three steps the specification names, as they occur in a path. -/
def namedSteps (path : List ShutdownStep) : List ShutdownStep :=
  path.filter fun s =>
    s == ShutdownStep.UnregisterService || s == ShutdownStep.ServicePoolShutdown ||
      s == ShutdownStep.MessengerShutdown

/-- Whether the path records a test failure. -/
def recordsFailure (path : List ShutdownStep) : Bool := path.any ShutdownStep.isFailure

end TestServer

/-! ## RpcTestBase: the driver routines -/

/-- The client's `RpcController` after a call: the sidecars it received. -/
structure RpcController where
  sidecars : List Slice
  deriving DecidableEq, Repr

/-- Modelled from the spec: `RpcController::GetSidecar` (not among the
sources), reading the "attachment (sidecar) storage addressed by integer
index": the sidecar at `idx`, an error status when `idx` names none. -/
def RpcController.GetSidecar (controller : RpcController) (idx : Int) : Except Status Slice :=
  if idx < 0 then
    Except.error ⟨StatusCode.InvalidArgument, "Index does not reference a valid sidecar", ""⟩
  else
    match controller.sidecars[idx.toNat]? with
    | some sidecar => Except.ok sidecar
    | none =>
      Except.error ⟨StatusCode.InvalidArgument, "Index does not reference a valid sidecar", ""⟩

/-- The `Proxy` a driver routine is handed: `SyncRequest(method, req, &resp,
&controller)` gives the status and what it left in `resp` and `controller`. -/
structure Proxy where
  SyncRequest : String → RequestPB → Status × ResponsePB × RpcController

/-- The accessor `AddResponsePB::result()`. -/
def ResponsePB.result : ResponsePB → Nat
  | ResponsePB.Add result => result
  | _ => 0

/-- The repeated field `SendStringsResponsePB::sidecars`. -/
def ResponsePB.sidecars : ResponsePB → List Nat
  | ResponsePB.SendStrings sidecars => sidecars
  | _ => []

/-- Conversion of an unsigned value to `int`: 32 bits, two's complement. -/
def toInt (n : Nat) : Int :=
  if n % 2 ^ 32 < 2 ^ 31 then ((n % 2 ^ 32 : Nat) : Int) else ((n % 2 ^ 32 : Nat) : Int) - 2 ^ 32

/-- Conversion of an `int` to `size_t`: 64 bits. -/
def toSizeT (i : Int) : Nat := (i % 2 ^ 64).toNat

/-- The checks and assertions a driver routine evaluates. -/
inductive TestStep where
  /-- `RETURN_NOT_OK` on a status that is not OK: the routine returns it. -/
  | ReturnNotOk (status : Status)
  /-- `CHECK_EQ(req.x() + req.y(), resp.result())`. -/
  | CheckEqSum (sum result : Nat)
  /-- `ASSERT_EQ(expected_code, status.code())`. -/
  | AssertEqCode (expected_code code : StatusCode)
  /-- The read `resp.sidecars(i)` of a repeated field of `count` entries. -/
  | SidecarsAt (i count : Nat)
  /-- `CHECK_OK(controller.GetSidecar(idx, &sidecar))`. -/
  | CheckOk (status : Status)
  /-- `CHECK_EQ(expected_size, sidecar.size())`. -/
  | CheckEqSize (expected_size : Int) (size : Nat)
  /-- `ASSERT_EQ(0, sidecar.compare(expected))` at position `i`. -/
  | AssertEqCompare (i : Nat) (sidecar expected : Slice)
  deriving DecidableEq, Repr

/-- Whether the step passes; a routine ends at the first step that does not.
`Slice::compare` is zero exactly on slices of equal bytes. -/
def TestStep.holds : TestStep → Bool
  | TestStep.ReturnNotOk _ => false
  | TestStep.CheckEqSum sum result => sum == result
  | TestStep.AssertEqCode expected_code code => expected_code == code
  | TestStep.SidecarsAt i count => decide (i < count)
  | TestStep.CheckOk status => status.ok
  | TestStep.CheckEqSize expected_size size => toSizeT expected_size == size
  | TestStep.AssertEqCompare _ sidecar expected => sidecar == expected

/-- Whether the step is a byte comparison of a sidecar. -/
def TestStep.isCompare : TestStep → Bool
  | TestStep.AssertEqCompare _ _ _ => true
  | _ => false

/-- Whether the step reads a sidecar, `GetSidecarPointer` included. -/
def TestStep.readsSidecar : TestStep → Bool
  | TestStep.SidecarsAt _ _ => true
  | TestStep.CheckOk _ => true
  | TestStep.CheckEqSize _ _ => true
  | TestStep.AssertEqCompare _ _ _ => true
  | _ => false

/-- `GetSidecarPointer`: the checks it evaluates and, when they pass, the slice
`Slice(sidecar.data(), expected_size)`. -/
def GetSidecarPointer (controller : RpcController) (idx : Int) (expected_size : Int) :
    List TestStep × Option Slice :=
  match controller.GetSidecar idx with
  | Except.error status => ([TestStep.CheckOk status], none)
  | Except.ok sidecar =>
    ([TestStep.CheckOk Status.OK, TestStep.CheckEqSize expected_size sidecar.length],
      if toSizeT expected_size = sidecar.length then
        some (sidecar.take (toSizeT expected_size))
      else none)

namespace RpcTestBase

/-- `RpcTestBase::DoTestSyncCall`; `x` and `y` are the operands drawn by
`RandomUniformInt<uint32_t>()`, as `req.x()` and `req.y()` read them back, and
`bits` is the width of the request and response fields. -/
def DoTestSyncCall (bits : Nat) (p : Proxy) (method : String) (x y : Nat) : List TestStep :=
  let req : AddRequestPB := ⟨x, y⟩
  let call := p.SyncRequest method (RequestPB.Add req)
  if !call.1.ok then [TestStep.ReturnNotOk call.1]
  else [TestStep.CheckEqSum ((req.x + req.y) % 2 ^ bits) call.2.1.result]

def kSeed : Nat := 12345

/-- The `for (size_t i = 0; i != sizes.size(); ++i)` loop of `DoTestSidecar`:
the position `i`, the sizes from `i` on and the generator `rng`. -/
def DoTestSidecar.loop (gen : RandomGen) (resp_sidecars : List Nat)
    (controller : RpcController) : Nat → List Nat → gen.State → List TestStep
  | _, [], _ => []
  | i, size :: rest, rng =>
    match resp_sidecars[i]? with
    | none => [TestStep.SidecarsAt i resp_sidecars.length]
    | some idx =>
      let got := GetSidecarPointer controller (toInt idx) (toInt size)
      match got.2 with
      | none => TestStep.SidecarsAt i resp_sidecars.length :: got.1
      | some sidecar =>
        let expected := gen.RandomString size rng
        TestStep.SidecarsAt i resp_sidecars.length :: got.1 ++
          TestStep.AssertEqCompare i sidecar expected.1 ::
            (if sidecar = expected.1 then
              DoTestSidecar.loop gen resp_sidecars controller (i + 1) rest expected.2
            else [])

/-- `RpcTestBase::DoTestSidecar`; `size_bits` is the width of the request's
`sizes` field, to which `add_sizes` converts each size. -/
def DoTestSidecar (gen : RandomGen) (size_bits : Nat) (p : Proxy) (sizes : List Nat)
    (expected_code : StatusCode) : List TestStep :=
  let req : SendStringsRequestPB := ⟨kSeed, sizes.map fun size => size % 2 ^ size_bits⟩
  let call := p.SyncRequest GenericCalculatorService.kSendStringsMethodName
    (RequestPB.SendStrings req)
  TestStep.AssertEqCode expected_code call.1.code ::
    (if expected_code ≠ call.1.code then []
     else if !call.1.ok then []
     else DoTestSidecar.loop gen call.2.1.sidecars call.2.2 0 sizes (gen.Random kSeed))

/-- The strings `DoTestSidecar` regenerates (`RandomString(expected.data(),
size, &rng)` for each size in turn), from the generator state `rng` on. -/
def expectedFrom (gen : RandomGen) : List Nat → gen.State → List Slice
  | [], _ => []
  | size :: rest, rng =>
    (gen.RandomString size rng).1 :: expectedFrom gen rest (gen.RandomString size rng).2

/-- The strings regenerated from a fresh `Random(seed)` for the sizes, in order. -/
def expectedStrings (gen : RandomGen) (seed : Nat) (sizes : List Nat) : List Slice :=
  expectedFrom gen sizes (gen.Random seed)

end RpcTestBase

/-! ## The transport between driver and service -/

/-- Modelled from the spec: the client's view of a call the transport carried
(the transport is not among the sources).  "Every issued call eventually
resolves to exactly one of (success, application error, transport failure) or
remains pending until a caller-specified timeout elapses": the first respond
operation of the run decides; a success delivers the response message and the
attached sidecars. -/
def deliver (run : List Effect) : Status × ResponsePB × RpcController :=
  match run.find? Effect.isRespond with
  | some (Effect.RespondSuccess resp) => (Status.OK, resp, ⟨attachedSidecars run⟩)
  | some (Effect.RespondFailure _ status) =>
    (⟨StatusCode.RemoteError, status.msg, status.msg2⟩, ResponsePB.Empty, ⟨[]⟩)
  | some (Effect.RespondApplicationError message extra_error_data) =>
    (⟨StatusCode.RemoteError, message, extra_error_data⟩, ResponsePB.Empty, ⟨[]⟩)
  | _ => (⟨StatusCode.TimedOut, "", ""⟩, ResponsePB.Empty, ⟨[]⟩)

/-- Modelled from the spec: a proxy whose calls the transport carries to a
`GenericCalculatorService` run against `env`. -/
def Proxy.toGeneric (env : Env) : Proxy :=
  ⟨fun method req => deliver (GenericCalculatorService.Handle env ⟨method, env.pb.serialize req⟩)⟩

/-- Modelled from the spec: a proxy whose `Add` calls the transport carries to
`CalculatorService::Add` (the generated dispatch is not among the sources). -/
def Proxy.toCalculator (bits : Nat) (context : RpcContext) : Proxy :=
  ⟨fun _method req =>
    match req with
    | RequestPB.Add req => deliver (CalculatorService.Add bits req context)
    | _ => (⟨StatusCode.RemoteError, "", ""⟩, ResponsePB.Empty, ⟨[]⟩)⟩

/-! ## Observations on runs -/

/-- Whether some effect satisfying `p` occurs before some effect satisfying `q`. -/
def occursBefore (p q : Effect → Bool) : List Effect → Bool
  | [] => false
  | e :: rest => (p e && rest.any q) || occursBefore p q rest

/-- Whether the payload of the call parses as the request of the method the
call names; no payload is parsed for a method `Handle` does not know. -/
def payloadParses (env : Env) (incoming : InboundCall) : Bool :=
  match GenericCalculatorService.Handle.method incoming with
  | some GenericCalculatorService.Method.DoAdd =>
    (env.pb.parseAdd incoming.serialized_request).isSome
  | some GenericCalculatorService.Method.DoSleep =>
    (env.pb.parseSleep incoming.serialized_request).isSome
  | some GenericCalculatorService.Method.DoSendStrings =>
    (env.pb.parseSendStrings incoming.serialized_request).isSome
  | none => true

/-! ## A concrete environment -/

namespace Sample

/-- A small wire encoding: a tag byte, then the fields; the operands of `Add`
take four bytes each, the other fields one. -/
def pb : Protobuf where
  parseAdd := fun param =>
    match param with
    | [tag, x0, x1, x2, x3, y0, y1, y2, y3] =>
      if tag = 1 then
        some ⟨x0.toNat + 256 * (x1.toNat + 256 * (x2.toNat + 256 * x3.toNat)),
          y0.toNat + 256 * (y1.toNat + 256 * (y2.toNat + 256 * y3.toNat))⟩
      else none
    | _ => none
  parseSleep := fun param =>
    match param with
    | [tag, micros, d, e, c] =>
      if tag = 2 then some ⟨micros.toNat, d != 0, e != 0, c != 0⟩ else none
    | _ => none
  parseSendStrings := fun param =>
    match param with
    | tag :: seed :: sizes =>
      if tag = 3 then some ⟨12300 + seed.toNat, sizes.map UInt8.toNat⟩ else none
    | _ => none
  initializationErrorString := fun _ => "sleep_micros"
  serialize := fun req =>
    match req with
    | RequestPB.Add req =>
      [1, UInt8.ofNat req.x, UInt8.ofNat (req.x / 256), UInt8.ofNat (req.x / 65536),
        UInt8.ofNat (req.x / 16777216), UInt8.ofNat req.y, UInt8.ofNat (req.y / 256),
        UInt8.ofNat (req.y / 65536), UInt8.ofNat (req.y / 16777216)]
    | RequestPB.Sleep req =>
      [2, UInt8.ofNat req.sleep_micros, if req.deferred then 1 else 0,
        if req.return_app_error then 1 else 0, if req.client_timeout_defined then 1 else 0]
    | RequestPB.SendStrings req =>
      3 :: UInt8.ofNat (req.random_seed - 12300) :: req.sizes.map UInt8.ofNat

/-- The bytes a linear congruential generator yields: `n` steps from state `r`. -/
def lcgString : Nat → Nat → Slice × Nat
  | 0, r => ([], r)
  | n + 1, r =>
    let next := r * 16807 % 2147483647
    (UInt8.ofNat next :: (lcgString n next).1, (lcgString n next).2)

/-- A linear congruential generator as payload generator. -/
def gen : RandomGen where
  State := Nat
  Random := fun seed => seed % 2147483647
  RandomString := lcgString
  RandomString_size := by
    intro n
    induction n with
    | zero => intro r; rfl
    | succ n ih => intro r; simp [lcgString, ih]

/-- A transport that accepts every sidecar. -/
def env : Env := ⟨pb, gen, 32, fun _ _ => Status.OK⟩

/-- A transport that accepts two sidecars a call and refuses the rest. -/
def envTwoSlices : Env :=
  ⟨pb, gen, 32, fun sidecars_ _ =>
    if sidecars_.length < 2 then Status.OK
    else ⟨StatusCode.ServiceUnavailable, "All available sidecars already used", ""⟩⟩

/-- Eight bytes of a 64-bit value, least significant first. -/
def bytes64 (n : Nat) : Slice :=
  [UInt8.ofNat n, UInt8.ofNat (n / 2 ^ 8), UInt8.ofNat (n / 2 ^ 16), UInt8.ofNat (n / 2 ^ 24),
    UInt8.ofNat (n / 2 ^ 32), UInt8.ofNat (n / 2 ^ 40), UInt8.ofNat (n / 2 ^ 48),
    UInt8.ofNat (n / 2 ^ 56)]

/-- The 64-bit values of a run of eight-byte groups. -/
def values64 : Slice → List Nat
  | b0 :: b1 :: b2 :: b3 :: b4 :: b5 :: b6 :: b7 :: rest =>
    (b0.toNat + 2 ^ 8 * b1.toNat + 2 ^ 16 * b2.toNat + 2 ^ 24 * b3.toNat + 2 ^ 32 * b4.toNat +
      2 ^ 40 * b5.toNat + 2 ^ 48 * b6.toNat + 2 ^ 56 * b7.toNat) :: values64 rest
  | _ => []

/-- The wire encoding `pb` with the sizes of SendStrings as 64-bit values. -/
def pbWide : Protobuf where
  parseAdd := pb.parseAdd
  parseSleep := pb.parseSleep
  parseSendStrings := fun param =>
    match param with
    | tag :: seed :: sizes =>
      if tag = 3 then some ⟨12300 + seed.toNat, values64 sizes⟩ else none
    | _ => none
  initializationErrorString := pb.initializationErrorString
  serialize := fun req =>
    match req with
    | RequestPB.SendStrings req =>
      3 :: UInt8.ofNat (req.random_seed - 12300) :: (req.sizes.map bytes64).flatten
    | req => pb.serialize req

/-- A transport that accepts every sidecar, with 64-bit sizes on the wire. -/
def envWide : Env := ⟨pbWide, gen, 32, fun _ _ => Status.OK⟩

/-- A call context without deadline. -/
def context : RpcContext := ⟨MonoTime.Max, ⟨"alice", none⟩, "127.0.0.1:50000"⟩

/-- A network that parses only 127.0.0.1 and reaches a server named "second". -/
def net : Network where
  from_string := fun host =>
    if host = "127.0.0.1" then Except.ok host else Except.error "Invalid argument"
  Forward := fun _ _ _ => (Status.OK, ⟨some "second"⟩)

end Sample

end yb.rpc

/-! ## Theorems -/

namespace yb.rpc

open GenericCalculatorService

/-! ### Raw dispatch -/

/-- C8: `GenericCalculatorService::Handle` invokes `DoAdd` exactly when the
method name is "Add", `DoSleep` exactly when it is "Sleep", `DoSendStrings`
exactly when it is "SendStrings"; for every other name, the empty string and
names differing only in case included, it invokes no handler and responds with
an `ERROR_NO_SUCH_METHOD` failure. -/
theorem Handle_dispatches_by_method_name (env : Env) (incoming : InboundCall) :
    (Handle.method incoming = some Method.DoAdd ↔ incoming.method_name = "Add") ∧
    (Handle.method incoming = some Method.DoSleep ↔ incoming.method_name = "Sleep") ∧
    (Handle.method incoming = some Method.DoSendStrings ↔
      incoming.method_name = "SendStrings") ∧
    (incoming.method_name = "Add" → Handle env incoming = DoAdd env incoming) ∧
    (incoming.method_name = "Sleep" → Handle env incoming = DoSleep env incoming) ∧
    (incoming.method_name = "SendStrings" →
      Handle env incoming = DoSendStrings env incoming) ∧
    (incoming.method_name ≠ "Add" ∧ incoming.method_name ≠ "Sleep" ∧
        incoming.method_name ≠ "SendStrings" →
      Handle.method incoming = none ∧
      Handle env incoming =
        [Effect.RespondFailure (some ErrorStatusPB.ERROR_NO_SUCH_METHOD)
          ⟨StatusCode.InvalidArgument, "bad method", ""⟩]) ∧
    (∀ name ∈ ["", "add", "ADD", "sleep", "SLEEP", "sendstrings", "Sendstrings", "Add "],
      Handle.method ⟨name, incoming.serialized_request⟩ = none ∧
      Handle env ⟨name, incoming.serialized_request⟩ =
        [Effect.RespondFailure (some ErrorStatusPB.ERROR_NO_SUCH_METHOD)
          ⟨StatusCode.InvalidArgument, "bad method", ""⟩]) := by
  have hne1 : ("Sleep" : String) ≠ "Add" := by decide
  have hne2 : ("SendStrings" : String) ≠ "Add" := by decide
  have hne3 : ("SendStrings" : String) ≠ "Sleep" := by decide
  refine ⟨?_, ?_, ?_, ?_, ?_, ?_, ?_, ?_⟩
  · unfold Handle.method kAddMethodName kSleepMethodName kSendStringsMethodName
    constructor
    · intro h
      by_contra hn
      simp only [hn, if_false] at h
      split_ifs at h <;> cases h
    · intro h
      simp [h]
  · unfold Handle.method kAddMethodName kSleepMethodName kSendStringsMethodName
    constructor
    · intro h
      by_contra hn
      simp only [hn, if_false] at h
      split_ifs at h <;> cases h
    · intro h
      simp [h, hne1]
  · unfold Handle.method kAddMethodName kSleepMethodName kSendStringsMethodName
    constructor
    · intro h
      by_contra hn
      simp only [hn, if_false] at h
      split_ifs at h <;> cases h
    · intro h
      simp [h, hne2, hne3]
  · intro h
    simp [Handle, Handle.method, kAddMethodName, h]
  · intro h
    simp [Handle, Handle.method, kAddMethodName, kSleepMethodName, h, hne1]
  · intro h
    simp [Handle, Handle.method, kAddMethodName, kSleepMethodName, kSendStringsMethodName, h,
      hne2, hne3]
  · rintro ⟨h1, h2, h3⟩
    simp [Handle, Handle.method, kAddMethodName, kSleepMethodName, kSendStringsMethodName, h1,
      h2, h3]
  · intro name hname
    have hcases : name ≠ "Add" ∧ name ≠ "Sleep" ∧ name ≠ "SendStrings" := by
      simp only [List.mem_cons, List.mem_singleton, List.not_mem_nil, or_false] at hname
      rcases hname with h | h | h | h | h | h | h | h <;> subst h <;> decide
    obtain ⟨h1, h2, h3⟩ := hcases
    simp [Handle, Handle.method, kAddMethodName, kSleepMethodName, kSendStringsMethodName, h1,
      h2, h3]

/-- C8 at concrete calls: "Sleep" runs `DoSleep`, "sleep" runs no handler. -/
theorem Handle_dispatches_by_method_name_witness :
    Handle Sample.env ⟨"Sleep", [2, 7, 0, 0, 0]⟩ =
      DoSleep Sample.env ⟨"Sleep", [2, 7, 0, 0, 0]⟩ ∧
    Handle Sample.env ⟨"sleep", [2, 7, 0, 0, 0]⟩ =
      [Effect.RespondFailure (some ErrorStatusPB.ERROR_NO_SUCH_METHOD)
        ⟨StatusCode.InvalidArgument, "bad method", ""⟩] :=
  ⟨(Handle_dispatches_by_method_name Sample.env ⟨"Sleep", [2, 7, 0, 0, 0]⟩).2.2.2.2.1 rfl,
   ((Handle_dispatches_by_method_name Sample.env ⟨"sleep", [2, 7, 0, 0, 0]⟩).2.2.2.2.2.2.1
      (by decide)).2⟩

/-- C9: on a payload that does not parse, raw `DoSleep` responds with an
`ERROR_INVALID_REQUEST` failure carrying an InvalidArgument status, sleeps not
at all and sends no success, whereas raw `DoAdd` and `DoSendStrings` reach
`LOG(FATAL)` and send no response; on a payload that parses, raw `DoSleep`
sleeps for exactly the decoded `sleep_micros` and then responds with an empty
success. -/
theorem raw_malformed_payload_asymmetry (env : Env) (incoming : InboundCall) :
    (env.pb.parseSleep incoming.serialized_request = none →
      DoSleep env incoming =
        [Effect.RespondFailure (some ErrorStatusPB.ERROR_INVALID_REQUEST)
          ⟨StatusCode.InvalidArgument, "Couldn't parse pb",
            env.pb.initializationErrorString incoming.serialized_request⟩] ∧
      (DoSleep env incoming).any Effect.isSleepFor = false ∧
      (DoSleep env incoming).any Effect.isRespondSuccess = false) ∧
    (env.pb.parseAdd incoming.serialized_request = none →
      DoAdd env incoming = [Effect.LogFatal incoming.serialized_request] ∧
      respondCount (DoAdd env incoming) = 0) ∧
    (env.pb.parseSendStrings incoming.serialized_request = none →
      DoSendStrings env incoming = [Effect.LogFatal incoming.serialized_request] ∧
      respondCount (DoSendStrings env incoming) = 0) ∧
    (∀ req, env.pb.parseSleep incoming.serialized_request = some req →
      DoSleep env incoming =
        [Effect.SleepFor req.sleep_micros, Effect.RespondSuccess ResponsePB.Sleep]) := by
  refine ⟨?_, ?_, ?_, ?_⟩
  · intro h
    simp [DoSleep, h, Effect.isSleepFor, Effect.isRespondSuccess]
  · intro h
    simp [DoAdd, h, respondCount, Effect.isRespond]
  · intro h
    simp [DoSendStrings, h, respondCount, Effect.isRespond]
  · intro req h
    simp [DoSleep, h]

/-- C9 at a concrete call: a three-byte payload parses as no request of the
sample encoding, a well-formed Sleep payload asks for 7 microseconds. -/
theorem raw_malformed_payload_asymmetry_witness :
    DoSleep Sample.env ⟨"Sleep", [9, 9, 9]⟩ =
        [Effect.RespondFailure (some ErrorStatusPB.ERROR_INVALID_REQUEST)
          ⟨StatusCode.InvalidArgument, "Couldn't parse pb", "sleep_micros"⟩] ∧
    DoAdd Sample.env ⟨"Add", [9, 9, 9]⟩ = [Effect.LogFatal [9, 9, 9]] ∧
    DoSendStrings Sample.env ⟨"SendStrings", [9, 9, 9]⟩ = [Effect.LogFatal [9, 9, 9]] ∧
    DoSleep Sample.env ⟨"Sleep", [2, 7, 0, 0, 0]⟩ =
        [Effect.SleepFor 7, Effect.RespondSuccess ResponsePB.Sleep] :=
  ⟨((raw_malformed_payload_asymmetry Sample.env ⟨"Sleep", [9, 9, 9]⟩).1 (by decide)).1,
   ((raw_malformed_payload_asymmetry Sample.env ⟨"Add", [9, 9, 9]⟩).2.1 (by decide)).1,
   ((raw_malformed_payload_asymmetry Sample.env ⟨"SendStrings", [9, 9, 9]⟩).2.2.1
      (by decide)).1,
   (raw_malformed_payload_asymmetry Sample.env ⟨"Sleep", [2, 7, 0, 0, 0]⟩).2.2.2
      ⟨7, false, false, false⟩ (by decide)⟩

/-! ### The typed service -/

/-- C4, the claim as stated fails: with `return_app_error` set, a Sleep request
that sets `client_timeout_defined` on a call without deadline is answered with
the "Got some error" application error, not with "Missing required timeout". -/
theorem Sleep_return_app_error_checked_first :
    Sample.context.client_deadline = MonoTime.Max ∧
    CalculatorService.Sleep ⟨0, false, true, true⟩ Sample.context =
      [Effect.RespondApplicationError "Got some error"
        "some application-specific error data"] ∧
    CalculatorService.Sleep ⟨0, false, true, true⟩ Sample.context ≠
      [Effect.RespondApplicationError "Missing required timeout" "Timeout not set"] := by
  decide

/-- C4, amended: if typed Sleep is requested with `client_timeout_defined` set
and the call carries no deadline, then for every value of `deferred` and
`sleep_micros` the result is the "Missing required timeout" application error
with extra data "Timeout not set" when `return_app_error` is not set, and the
"Got some error" application error when it is; in both cases the result is
never success and no sleep is performed. -/
theorem Sleep_missing_required_timeout (req : SleepRequestPB) (context : RpcContext)
    (hdefined : req.client_timeout_defined = true)
    (hnone : context.client_deadline = MonoTime.Max) :
    (req.return_app_error = false →
      CalculatorService.Sleep req context =
        [Effect.RespondApplicationError "Missing required timeout" "Timeout not set"]) ∧
    (req.return_app_error = true →
      CalculatorService.Sleep req context =
        [Effect.RespondApplicationError "Got some error"
          "some application-specific error data"]) ∧
    (CalculatorService.Sleep req context).any Effect.isRespondSuccess = false ∧
    (CalculatorService.Sleep req context).any Effect.isSleepFor = false := by
  have hEq : context.client_deadline.Equals MonoTime.Max = true := by
    rw [hnone]; rfl
  cases hret : req.return_app_error <;>
    simp [CalculatorService.Sleep, hret, hdefined, hEq, Effect.isRespondSuccess,
      Effect.isSleepFor]

/-- C4, amended, at a deferred request for 500 microseconds without deadline. -/
theorem Sleep_missing_required_timeout_witness :
    CalculatorService.Sleep ⟨500, true, false, true⟩ Sample.context =
      [Effect.RespondApplicationError "Missing required timeout" "Timeout not set"] :=
  (Sleep_missing_required_timeout ⟨500, true, false, true⟩ Sample.context rfl rfl).1 rfl

/-- C5, the claim as stated fails: `Disconnect` calls `CloseConnection` first
and `RespondSuccess` second, so no `RespondSuccess` occurs before the
`CloseConnection`. -/
theorem Disconnect_responds_after_close :
    CalculatorService.Disconnect Sample.context =
      [Effect.CloseConnection, Effect.RespondSuccess ResponsePB.Disconnect] ∧
    occursBefore Effect.isRespondSuccess Effect.isCloseConnection
      (CalculatorService.Disconnect Sample.context) = false := by
  decide

/-- C5, amended: for every Disconnect request the handler asks for the
connection to be closed and then responds with success: `CloseConnection`
occurs before `RespondSuccess`, each exactly once, and the handler performs
nothing else. -/
theorem Disconnect_closes_then_responds (context : RpcContext) :
    CalculatorService.Disconnect context =
      [Effect.CloseConnection, Effect.RespondSuccess ResponsePB.Disconnect] ∧
    occursBefore Effect.isCloseConnection Effect.isRespondSuccess
      (CalculatorService.Disconnect context) = true ∧
    occursBefore Effect.isRespondSuccess Effect.isCloseConnection
      (CalculatorService.Disconnect context) = false ∧
    (CalculatorService.Disconnect context).countP Effect.isRespondSuccess = 1 ∧
    (CalculatorService.Disconnect context).countP Effect.isCloseConnection = 1 ∧
    respondCount (CalculatorService.Disconnect context) = 1 := by
  refine ⟨rfl, ?_, ?_, ?_, ?_, ?_⟩ <;> rfl

/-- C6, the claim as stated fails: on a service whose messenger is gone, a
request with host and port stops at `YB_ASSERT_TRUE(messenger)`, before the
host is parsed: an unparsable host gets no NetworkError failure, and neither
it nor a parsable host gets any response or outbound call. -/
theorem Forward_without_messenger :
    Sample.net.from_string "no such host" = Except.error "Invalid argument" ∧
    CalculatorService.Forward Sample.net ⟨"first", none⟩ ⟨some "no such host", some 9000⟩
      Sample.context = [Effect.AssertTrueFailed] ∧
    respondCount (CalculatorService.Forward Sample.net ⟨"first", none⟩
      ⟨some "no such host", some 9000⟩ Sample.context) = 0 ∧
    CalculatorService.Forward Sample.net ⟨"first", none⟩ ⟨some "127.0.0.1", some 9000⟩
      Sample.context = [Effect.AssertTrueFailed] := by
  refine ⟨?_, ?_, ?_, ?_⟩
  · simp [Sample.net]
  · decide
  · decide
  · decide

/-- C6, amended: for every request lacking a host or lacking a port, Forward
responds success with name equal to the instance's `name_` and makes no
outbound call; for every request with both host and port, provided the
messenger is still alive: if the host string fails address parsing, Forward
responds with a NetworkError failure (never success) and makes no outbound
call; otherwise it issues one Forward call with an empty request to the target
(the parsed address and the port narrowed to the endpoint's 16 bits) and
responds success with the target's returned name if that call's status is OK,
and with a failure carrying that call's status if it is not. -/
theorem Forward_outcome (net : Network) (self : CalculatorService) (req : ForwardRequestPB)
    (context : RpcContext) :
    (req.host = none ∨ req.port = none →
      CalculatorService.Forward net self req context =
        [Effect.RespondSuccess (ResponsePB.Forward (some self.name_))]) ∧
    (∀ host port messenger ec, req = ⟨some host, some port⟩ →
      self.messenger_ = some messenger → net.from_string host = Except.error ec →
      CalculatorService.Forward net self req context =
        [Effect.RespondFailure none ⟨StatusCode.NetworkError, "Invalid host: " ++ ec, ""⟩]) ∧
    (∀ host port messenger address, req = ⟨some host, some port⟩ →
      self.messenger_ = some messenger → net.from_string host = Except.ok address →
      ((net.Forward messenger ⟨address, port % 2 ^ 16⟩ ⟨none, none⟩).1.ok = true →
        CalculatorService.Forward net self req context =
          [Effect.ProxyForward ⟨address, port % 2 ^ 16⟩ ⟨none, none⟩,
            Effect.RespondSuccess (ResponsePB.Forward
              (some (net.Forward messenger ⟨address, port % 2 ^ 16⟩ ⟨none, none⟩).2.getName))]) ∧
      ((net.Forward messenger ⟨address, port % 2 ^ 16⟩ ⟨none, none⟩).1.ok = false →
        CalculatorService.Forward net self req context =
          [Effect.ProxyForward ⟨address, port % 2 ^ 16⟩ ⟨none, none⟩,
            Effect.RespondFailure none
              (net.Forward messenger ⟨address, port % 2 ^ 16⟩ ⟨none, none⟩).1])) := by
  refine ⟨?_, ?_, ?_⟩
  · rintro (h | h) <;> simp [CalculatorService.Forward, h]
  · intro host port messenger ec hreq hm hparse
    subst hreq
    simp [CalculatorService.Forward, hm, hparse]
  · intro host port messenger address hreq hm hparse
    subst hreq
    constructor
    · intro hok
      simp only [Nat.reducePow] at hok
      simp [CalculatorService.Forward, hm, hparse, hok]
    · intro hok
      simp only [Nat.reducePow] at hok
      simp [CalculatorService.Forward, hm, hparse, hok]

/-- C6, amended, at concrete requests to a service named "first" whose
messenger is alive: no host, an unparsable host, a reachable target, and a
port of 70000, which reaches the target at port 4464. -/
theorem Forward_outcome_witness :
    CalculatorService.Forward Sample.net ⟨"first", some ⟨"m"⟩⟩ ⟨none, some 9000⟩
        Sample.context = [Effect.RespondSuccess (ResponsePB.Forward (some "first"))] ∧
    CalculatorService.Forward Sample.net ⟨"first", some ⟨"m"⟩⟩
        ⟨some "no such host", some 9000⟩ Sample.context =
      [Effect.RespondFailure none
        ⟨StatusCode.NetworkError, "Invalid host: Invalid argument", ""⟩] ∧
    CalculatorService.Forward Sample.net ⟨"first", some ⟨"m"⟩⟩
        ⟨some "127.0.0.1", some 9000⟩ Sample.context =
      [Effect.ProxyForward ⟨"127.0.0.1", 9000⟩ ⟨none, none⟩,
        Effect.RespondSuccess (ResponsePB.Forward (some "second"))] ∧
    CalculatorService.Forward Sample.net ⟨"first", some ⟨"m"⟩⟩
        ⟨some "127.0.0.1", some 70000⟩ Sample.context =
      [Effect.ProxyForward ⟨"127.0.0.1", 4464⟩ ⟨none, none⟩,
        Effect.RespondSuccess (ResponsePB.Forward (some "second"))] :=
  ⟨(Forward_outcome Sample.net ⟨"first", some ⟨"m"⟩⟩ ⟨none, some 9000⟩ Sample.context).1
      (Or.inl rfl),
   (Forward_outcome Sample.net ⟨"first", some ⟨"m"⟩⟩ ⟨some "no such host", some 9000⟩
      Sample.context).2.1 "no such host" 9000 ⟨"m"⟩ "Invalid argument" rfl rfl
      (by simp [Sample.net]),
   ((Forward_outcome Sample.net ⟨"first", some ⟨"m"⟩⟩ ⟨some "127.0.0.1", some 9000⟩
      Sample.context).2.2 "127.0.0.1" 9000 ⟨"m"⟩ "127.0.0.1" rfl rfl
      (by simp [Sample.net])).1
      (by decide),
   ((Forward_outcome Sample.net ⟨"first", some ⟨"m"⟩⟩ ⟨some "127.0.0.1", some 70000⟩
      Sample.context).2.2 "127.0.0.1" 70000 ⟨"m"⟩ "127.0.0.1" rfl rfl
      (by simp [Sample.net])).1
      (by decide)⟩

/-! ### TestServer -/

/-- C7, the claim as stated fails: when `UnregisterService` reports
ServiceUnavailable, `TestServer::Shutdown()` records a failure through
`ASSERT_OK` and returns, so neither the service pool nor the messenger is shut
down on that path. -/
theorem Shutdown_asserts_on_ServiceUnavailable :
    TestServer.Shutdown TestServer.constructed
        ⟨StatusCode.ServiceUnavailable, "service not registered", ""⟩ =
      [ShutdownStep.UnregisterService, ShutdownStep.AssertOkFailed] ∧
    TestServer.recordsFailure (TestServer.Shutdown TestServer.constructed
        ⟨StatusCode.ServiceUnavailable, "service not registered", ""⟩) = true ∧
    TestServer.namedSteps (TestServer.Shutdown TestServer.constructed
        ⟨StatusCode.ServiceUnavailable, "service not registered", ""⟩) ≠
      [ShutdownStep.UnregisterService, ShutdownStep.ServicePoolShutdown,
        ShutdownStep.MessengerShutdown] := by
  decide

/-- C7, amended: the destructor `~TestServer()`, also when it runs after
`Shutdown()`, shuts down the worker thread pool and then deregisters the
service, shuts down the service pool and stops the messenger, in that order,
whatever `UnregisterService` returns, and records no failure when that is OK
or ServiceUnavailable; the explicit `TestServer::Shutdown()` deregisters the
service, shuts down the service pool and stops the messenger, in that order
and without recording a failure, when `UnregisterService` returns OK. -/
theorem shutdown_paths_in_order (unregister later : Status) :
    TestServer.destructor TestServer.constructed unregister =
      ShutdownStep.ThreadPoolShutdown :: ShutdownStep.UnregisterService ::
        ((TestServer.destructor TestServer.constructed unregister).filter
            ShutdownStep.isFailure ++
          [ShutdownStep.ServicePoolShutdown, ShutdownStep.MessengerShutdown]) ∧
    TestServer.namedSteps (TestServer.destructor TestServer.constructed unregister) =
      [ShutdownStep.UnregisterService, ShutdownStep.ServicePoolShutdown,
        ShutdownStep.MessengerShutdown] ∧
    (unregister.ok = true ∨ unregister.IsServiceUnavailable = true →
      TestServer.recordsFailure (TestServer.destructor TestServer.constructed unregister) =
        false) ∧
    (unregister.ok = true →
      TestServer.Shutdown TestServer.constructed unregister =
        [ShutdownStep.UnregisterService, ShutdownStep.ServicePoolShutdown,
          ShutdownStep.MessengerShutdown] ∧
      TestServer.recordsFailure (TestServer.Shutdown TestServer.constructed unregister) =
        false ∧
      TestServer.namedSteps (TestServer.Shutdown TestServer.constructed unregister ++
          TestServer.destructor TestServer.constructed later) =
        [ShutdownStep.UnregisterService, ShutdownStep.ServicePoolShutdown,
          ShutdownStep.MessengerShutdown, ShutdownStep.UnregisterService,
          ShutdownStep.ServicePoolShutdown, ShutdownStep.MessengerShutdown] ∧
      (later.ok = true ∨ later.IsServiceUnavailable = true →
        TestServer.recordsFailure (TestServer.Shutdown TestServer.constructed unregister ++
          TestServer.destructor TestServer.constructed later) = false)) := by
  have hdes : ∀ st : Status,
      TestServer.destructor TestServer.constructed st =
        ShutdownStep.ThreadPoolShutdown :: ShutdownStep.UnregisterService ::
          ((if st.ok = true ∨ st.IsServiceUnavailable = true then []
            else [ShutdownStep.ExpectOkFailed]) ++
            [ShutdownStep.ServicePoolShutdown, ShutdownStep.MessengerShutdown]) := by
    intro st
    cases h1 : st.ok <;> cases h2 : st.IsServiceUnavailable <;>
      simp [TestServer.destructor, TestServer.constructed, h1, h2]
  refine ⟨?_, ?_, ?_, ?_⟩
  · rw [hdes unregister]
    by_cases h : unregister.ok = true ∨ unregister.IsServiceUnavailable = true <;>
      simp [h, ShutdownStep.isFailure]
  · rw [hdes unregister]
    by_cases h : unregister.ok = true ∨ unregister.IsServiceUnavailable = true <;>
      simp [h, TestServer.namedSteps]
  · intro h
    rw [hdes unregister]
    simp [h, TestServer.recordsFailure, ShutdownStep.isFailure]
  · intro hok
    refine ⟨?_, ?_, ?_, ?_⟩
    · simp [TestServer.Shutdown, hok]
    · simp [TestServer.Shutdown, hok, TestServer.recordsFailure, ShutdownStep.isFailure]
    · rw [hdes later]
      by_cases h : later.ok = true ∨ later.IsServiceUnavailable = true <;>
        simp [h, TestServer.Shutdown, hok, TestServer.namedSteps]
    · intro h
      rw [hdes later]
      simp [h, TestServer.Shutdown, hok, TestServer.recordsFailure, ShutdownStep.isFailure]

/-- C7, amended, at `Shutdown()` on a registered service followed by the
destructor, whose `UnregisterService` then reports ServiceUnavailable. -/
theorem shutdown_paths_in_order_witness :
    TestServer.recordsFailure
      (TestServer.Shutdown TestServer.constructed Status.OK ++
        TestServer.destructor TestServer.constructed
          ⟨StatusCode.ServiceUnavailable, "service not registered", ""⟩) = false :=
  ((shutdown_paths_in_order Status.OK
      ⟨StatusCode.ServiceUnavailable, "service not registered", ""⟩).2.2.2 rfl).2.2.2
    (Or.inr rfl)

/-! ### The loop of `DoSendStrings` -/

/-- One turn of the loop whose `AddRpcSidecar` call succeeds. -/
theorem DoSendStrings.loop_cons_ok (env : Env) (size : Nat) (rest : List Nat)
    (r : env.rng.State) (sidecars_ : List Slice) (resp_sidecars : List Nat)
    (hok : (env.sidecarPolicy sidecars_ (env.rng.RandomString size r).1).ok = true) :
    DoSendStrings.loop env (size :: rest) r sidecars_ resp_sidecars =
      Effect.RandomString size ::
        Effect.AddRpcSidecar (env.rng.RandomString size r).1
          (env.sidecarPolicy sidecars_ (env.rng.RandomString size r).1) ::
        DoSendStrings.loop env rest (env.rng.RandomString size r).2
          (sidecars_ ++ [(env.rng.RandomString size r).1])
          (resp_sidecars ++ [sidecars_.length]) := by
  simp [DoSendStrings.loop, YBInboundCall.AddRpcSidecar, hok]

/-- One turn of the loop whose `AddRpcSidecar` call fails. -/
theorem DoSendStrings.loop_cons_fail (env : Env) (size : Nat) (rest : List Nat)
    (r : env.rng.State) (sidecars_ : List Slice) (resp_sidecars : List Nat)
    (hok : (env.sidecarPolicy sidecars_ (env.rng.RandomString size r).1).ok = false) :
    DoSendStrings.loop env (size :: rest) r sidecars_ resp_sidecars =
      [Effect.RandomString size,
        Effect.AddRpcSidecar (env.rng.RandomString size r).1
          (env.sidecarPolicy sidecars_ (env.rng.RandomString size r).1),
        Effect.RespondFailure (some ErrorStatusPB.ERROR_APPLICATION)
          (env.sidecarPolicy sidecars_ (env.rng.RandomString size r).1)] := by
  simp [DoSendStrings.loop, YBInboundCall.AddRpcSidecar, hok]

/-- The loop responds exactly once, whatever the transport decides. -/
theorem DoSendStrings.loop_respondCount (env : Env) (sizes : List Nat) :
    ∀ (r : env.rng.State) (sidecars_ : List Slice) (resp_sidecars : List Nat),
      respondCount (DoSendStrings.loop env sizes r sidecars_ resp_sidecars) = 1 := by
  induction sizes with
  | nil =>
    intro r sidecars_ resp_sidecars
    simp [DoSendStrings.loop, respondCount, Effect.isRespond]
  | cons size rest ih =>
    intro r sidecars_ resp_sidecars
    cases hok : (env.sidecarPolicy sidecars_ (env.rng.RandomString size r).1).ok
    · rw [DoSendStrings.loop_cons_fail env size rest r sidecars_ resp_sidecars hok]
      simp [respondCount, Effect.isRespond]
    · rw [DoSendStrings.loop_cons_ok env size rest r sidecars_ resp_sidecars hok]
      have := ih (env.rng.RandomString size r).2
        (sidecars_ ++ [(env.rng.RandomString size r).1]) (resp_sidecars ++ [sidecars_.length])
      simpa [respondCount, Effect.isRespond] using this

/-- When every `AddRpcSidecar` call of the loop succeeds: the one respond
operation is a success listing the indices in order, a string was generated
for every size, and the attached buffers are the strings regenerated from the
same generator state. -/
theorem DoSendStrings.loop_all_ok (env : Env) (sizes : List Nat) :
    ∀ (r : env.rng.State) (sidecars_ : List Slice) (resp_sidecars : List Nat),
      (∀ st ∈ sidecarStatuses (DoSendStrings.loop env sizes r sidecars_ resp_sidecars),
        st.ok = true) →
      (DoSendStrings.loop env sizes r sidecars_ resp_sidecars).filter Effect.isRespond =
        [Effect.RespondSuccess (ResponsePB.SendStrings
          (resp_sidecars ++ List.range' sidecars_.length sizes.length))] ∧
      generatedSizes (DoSendStrings.loop env sizes r sidecars_ resp_sidecars) = sizes ∧
      attachedSidecars (DoSendStrings.loop env sizes r sidecars_ resp_sidecars) =
        RpcTestBase.expectedFrom env.rng sizes r := by
  induction sizes with
  | nil =>
    intro r sidecars_ resp_sidecars _
    simp [DoSendStrings.loop, Effect.isRespond, generatedSizes, attachedSidecars,
      RpcTestBase.expectedFrom]
  | cons size rest ih =>
    intro r sidecars_ resp_sidecars hall
    cases hok : (env.sidecarPolicy sidecars_ (env.rng.RandomString size r).1).ok
    · exfalso
      rw [DoSendStrings.loop_cons_fail env size rest r sidecars_ resp_sidecars hok] at hall
      have := hall (env.sidecarPolicy sidecars_ (env.rng.RandomString size r).1)
        (by simp [sidecarStatuses])
      rw [hok] at this
      cases this
    · rw [DoSendStrings.loop_cons_ok env size rest r sidecars_ resp_sidecars hok] at hall ⊢
      have hrest := ih (env.rng.RandomString size r).2
        (sidecars_ ++ [(env.rng.RandomString size r).1]) (resp_sidecars ++ [sidecars_.length])
        (by
          intro st hst
          apply hall
          simp only [sidecarStatuses, List.filterMap_cons] at hst ⊢
          exact List.mem_cons_of_mem _ hst)
      obtain ⟨h1, h2, h3⟩ := hrest
      refine ⟨?_, ?_, ?_⟩
      · simp only [List.filter_cons, Effect.isRespond, h1]
        simp [List.range'_succ]
      · simpa [generatedSizes] using h2
      · simpa [attachedSidecars, hok, RpcTestBase.expectedFrom] using h3

/-- When the `k`-th `AddRpcSidecar` call of the loop fails: it is the last
call, the one respond operation is the failure carrying its status, strings
were generated for the sizes up to position `k` only, and the `k` buffers
attached before it are the first `k` regenerated strings. -/
theorem DoSendStrings.loop_fail_at (env : Env) (sizes : List Nat) :
    ∀ (k : Nat) (r : env.rng.State) (sidecars_ : List Slice) (resp_sidecars : List Nat)
      (st : Status),
      (sidecarStatuses (DoSendStrings.loop env sizes r sidecars_ resp_sidecars))[k]? =
        some st →
      st.ok = false →
      k < sizes.length ∧
      (DoSendStrings.loop env sizes r sidecars_ resp_sidecars).filter Effect.isRespond =
        [Effect.RespondFailure (some ErrorStatusPB.ERROR_APPLICATION) st] ∧
      generatedSizes (DoSendStrings.loop env sizes r sidecars_ resp_sidecars) =
        sizes.take (k + 1) ∧
      attachedSidecars (DoSendStrings.loop env sizes r sidecars_ resp_sidecars) =
        (RpcTestBase.expectedFrom env.rng sizes r).take k ∧
      (sidecarStatuses (DoSendStrings.loop env sizes r sidecars_ resp_sidecars)).length =
        k + 1 := by
  induction sizes with
  | nil =>
    intro k r sidecars_ resp_sidecars st hk _
    simp [DoSendStrings.loop, sidecarStatuses] at hk
  | cons size rest ih =>
    intro k r sidecars_ resp_sidecars st hk hfail
    cases hok : (env.sidecarPolicy sidecars_ (env.rng.RandomString size r).1).ok
    · rw [DoSendStrings.loop_cons_fail env size rest r sidecars_ resp_sidecars hok] at hk ⊢
      cases k with
      | zero =>
        simp only [sidecarStatuses, List.filterMap_cons, List.filterMap_nil,
          List.getElem?_cons_zero, Option.some.injEq] at hk
        subst hk
        simp [Effect.isRespond, generatedSizes, attachedSidecars, sidecarStatuses, hok]
      | succ k =>
        simp [sidecarStatuses] at hk
    · rw [DoSendStrings.loop_cons_ok env size rest r sidecars_ resp_sidecars hok] at hk ⊢
      cases k with
      | zero =>
        simp only [sidecarStatuses, List.filterMap_cons, List.getElem?_cons_zero,
          Option.some.injEq] at hk
        subst hk
        rw [hok] at hfail
        cases hfail
      | succ k =>
        have hk2 : (sidecarStatuses (DoSendStrings.loop env rest (env.rng.RandomString size r).2
            (sidecars_ ++ [(env.rng.RandomString size r).1])
            (resp_sidecars ++ [sidecars_.length])))[k]? = some st := by
          simpa [sidecarStatuses] using hk
        obtain ⟨h0, h1, h2, h3, h4⟩ := ih k (env.rng.RandomString size r).2
          (sidecars_ ++ [(env.rng.RandomString size r).1])
          (resp_sidecars ++ [sidecars_.length]) st hk2 hfail
        refine ⟨?_, ?_, ?_, ?_, ?_⟩
        · simpa using h0
        · simpa [Effect.isRespond] using h1
        · simpa [generatedSizes] using h2
        · simpa [attachedSidecars, hok, RpcTestBase.expectedFrom] using h3
        · simpa [sidecarStatuses] using h4

/-- Every regenerated string has the size asked for. -/
theorem RpcTestBase.expectedFrom_sizes (gen : RandomGen) (sizes : List Nat) :
    ∀ rng : gen.State, (RpcTestBase.expectedFrom gen sizes rng).map List.length = sizes := by
  induction sizes with
  | nil => intro rng; rfl
  | cons size rest ih =>
    intro rng
    simp [RpcTestBase.expectedFrom, gen.RandomString_size, ih]

/-- A list whose filter is a singleton has that element as its first match. -/
theorem find?_of_filter_eq_singleton {α : Type} (p : α → Bool) (a : α) :
    ∀ l : List α, l.filter p = [a] → l.find? p = some a := by
  intro l
  induction l with
  | nil => intro h; simp at h
  | cons x xs ih =>
    intro h
    cases hp : p x
    · rw [List.filter_cons_of_neg (by simp [hp])] at h
      rw [List.find?_cons_of_neg _ (by simp [hp])]
      exact ih h
    · rw [List.filter_cons_of_pos hp] at h
      rw [List.find?_cons_of_pos _ hp]
      injection h with h1 _
      rw [h1]

/-! ### The conversions of `GetSidecarPointer` -/

/-- An unsigned value below 2^31 converts to the same `int`. -/
theorem toInt_of_lt (n : Nat) (h : n < 2 ^ 31) : toInt n = (n : Int) := by
  have hmod : n % 2 ^ 32 = n := Nat.mod_eq_of_lt (by omega)
  unfold toInt
  rw [hmod, if_pos h]

/-- 2^31 converts to a negative `int`. -/
theorem toInt_two_pow_31 : toInt (2 ^ 31) < 0 := by
  decide

/-- A size below 2^31 survives the conversion to `int` and back to `size_t`. -/
theorem toSizeT_toInt_of_lt (n : Nat) (h : n < 2 ^ 31) : toSizeT (toInt n) = n := by
  rw [toInt_of_lt n h]
  unfold toSizeT
  have : ((n : Int) % 2 ^ 64) = (n : Int) := Int.emod_eq_of_lt (by omega) (by omega)
  rw [this]
  rfl

/-- A size of 2^31 does not survive the conversion to `int`: the `CHECK_EQ` of
`GetSidecarPointer` fails on a sidecar of that size. -/
theorem GetSidecarPointer_size_two_pow_31 (controller : RpcController) (sidecar : Slice)
    (hget : controller.sidecars[0]? = some sidecar) (hsize : sidecar.length = 2 ^ 31) :
    (GetSidecarPointer controller (toInt 0) (toInt (2 ^ 31))).2 = none := by
  have h0 : toInt 0 = 0 := by decide
  have hne : ¬ toSizeT (toInt (2 ^ 31)) = sidecar.length := by
    rw [hsize]
    decide
  simp only [GetSidecarPointer, RpcController.GetSidecar, h0, Int.toNat_zero, hget,
    lt_self_iff_false, if_false, if_neg hne]

/-- `GetSidecarPointer` on a negative index stops at `CHECK_OK`. -/
theorem GetSidecarPointer_neg (controller : RpcController) (idx expected_size : Int)
    (h : idx < 0) :
    (GetSidecarPointer controller idx expected_size).2 = none ∧
    ∀ step ∈ (GetSidecarPointer controller idx expected_size).1, step.isCompare = false := by
  simp [GetSidecarPointer, RpcController.GetSidecar, h, TestStep.isCompare]

/-- `GetSidecarPointer` on the index of a sidecar, below 2^31. -/
theorem GetSidecarPointer_at (controller : RpcController) (i : Nat) (expected_size : Int)
    (sidecar : Slice) (hi : i < 2 ^ 31) (hget : controller.sidecars[i]? = some sidecar) :
    GetSidecarPointer controller (toInt i) expected_size =
      ([TestStep.CheckOk Status.OK, TestStep.CheckEqSize expected_size sidecar.length],
        if toSizeT expected_size = sidecar.length then
          some (sidecar.take (toSizeT expected_size))
        else none) := by
  have hnn : ¬ ((i : Int) < 0) := by omega
  simp [GetSidecarPointer, RpcController.GetSidecar, toInt_of_lt i hi, hnn, hget]

/-- The byte comparisons of the driver loop all hold when the controller holds
the regenerated strings and the response lists their indices in order. -/
theorem RpcTestBase.DoTestSidecar.loop_compares_hold (gen : RandomGen)
    (resp_sidecars : List Nat) (controller : RpcController) (rest : List Nat) :
    ∀ (i : Nat) (rng : gen.State) (before : List Slice),
      i ≤ 2 ^ 31 → before.length = i →
      controller.sidecars = before ++ RpcTestBase.expectedFrom gen rest rng →
      (∀ j, j < i + rest.length → resp_sidecars[j]? = some j) →
      ∀ step ∈ RpcTestBase.DoTestSidecar.loop gen resp_sidecars controller i rest rng,
        step.isCompare = true → step.holds = true := by
  induction rest with
  | nil =>
    intro i rng before _ _ _ _ step hstep
    simp [RpcTestBase.DoTestSidecar.loop] at hstep
  | cons size tl ih =>
    intro i rng before hi hlen hcars hresp step hstep hcmp
    have hidx : resp_sidecars[i]? = some i := hresp i (by simp)
    have hget : controller.sidecars[i]? = some (gen.RandomString size rng).1 := by
      rw [hcars, List.getElem?_append_right (by omega)]
      simp [hlen, RpcTestBase.expectedFrom]
    rcases Nat.lt_or_ge i (2 ^ 31) with hlt | hge
    · simp only [RpcTestBase.DoTestSidecar.loop, hidx,
        GetSidecarPointer_at controller i (toInt size) _ hlt hget] at hstep
      by_cases hsz : toSizeT (toInt size) = (gen.RandomString size rng).1.length
      · simp only [hsz, if_true, List.take_length] at hstep
        simp only [List.cons_append, List.nil_append, List.mem_cons] at hstep
        rcases hstep with h | h | h | h | h
        · subst h; simp [TestStep.isCompare] at hcmp
        · subst h; simp [TestStep.isCompare] at hcmp
        · subst h; simp [TestStep.isCompare] at hcmp
        · subst h; simp [TestStep.holds]
        · exact ih (i + 1) (gen.RandomString size rng).2
            (before ++ [(gen.RandomString size rng).1]) (by omega) (by simp [hlen])
            (by simp [hcars, RpcTestBase.expectedFrom])
            (by
              intro j hj
              apply hresp
              simp only [List.length_cons]
              omega)
            step h hcmp
      · simp only [hsz, if_false, List.mem_cons] at hstep
        rcases hstep with h | h | h | h
        · subst h; simp [TestStep.isCompare] at hcmp
        · subst h; simp [TestStep.isCompare] at hcmp
        · subst h; simp [TestStep.isCompare] at hcmp
        · simp at h
    · have hi31 : i = 2 ^ 31 := by omega
      have hneg := GetSidecarPointer_neg controller (toInt i) (toInt size)
        (by rw [hi31]; exact toInt_two_pow_31)
      simp only [RpcTestBase.DoTestSidecar.loop, hidx, hneg.1, List.mem_cons] at hstep
      rcases hstep with h | h
      · subst h; simp [TestStep.isCompare] at hcmp
      · have := hneg.2 step h
        rw [this] at hcmp
        cases hcmp

/-- With every size and the number of sizes within `int`, the driver loop
passes every step and compares each regenerated string, position by position. -/
theorem RpcTestBase.DoTestSidecar.loop_passes (gen : RandomGen)
    (resp_sidecars : List Nat) (controller : RpcController) (rest : List Nat) :
    ∀ (i : Nat) (rng : gen.State) (before : List Slice),
      i + rest.length ≤ 2 ^ 31 → (∀ size ∈ rest, size < 2 ^ 31) → before.length = i →
      controller.sidecars = before ++ RpcTestBase.expectedFrom gen rest rng →
      (∀ j, j < i + rest.length → resp_sidecars[j]? = some j) →
      (RpcTestBase.DoTestSidecar.loop gen resp_sidecars controller i rest rng).all
          TestStep.holds = true ∧
      (RpcTestBase.DoTestSidecar.loop gen resp_sidecars controller i rest rng).filter
          TestStep.isCompare =
        (List.enumFrom i (RpcTestBase.expectedFrom gen rest rng)).map
          fun e => TestStep.AssertEqCompare e.1 e.2 e.2 := by
  induction rest with
  | nil =>
    intro i rng before _ _ _ _ _
    simp [RpcTestBase.DoTestSidecar.loop, RpcTestBase.expectedFrom]
  | cons size tl ih =>
    intro i rng before hi hsizes hlen hcars hresp
    have hidx : resp_sidecars[i]? = some i := hresp i (by simp)
    have hget : controller.sidecars[i]? = some (gen.RandomString size rng).1 := by
      rw [hcars, List.getElem?_append_right (by omega)]
      simp [hlen, RpcTestBase.expectedFrom]
    have hlt : i < 2 ^ 31 := by
      simp only [List.length_cons] at hi
      omega
    have hsize : size < 2 ^ 31 := hsizes size (by simp)
    have hsz : toSizeT (toInt size) = (gen.RandomString size rng).1.length := by
      rw [toSizeT_toInt_of_lt size hsize, gen.RandomString_size]
    have hcount : i < resp_sidecars.length := by
      by_contra hc
      rw [List.getElem?_eq_none (by omega)] at hidx
      cases hidx
    obtain ⟨h1, h2⟩ := ih (i + 1) (gen.RandomString size rng).2
      (before ++ [(gen.RandomString size rng).1])
      (by simp only [List.length_cons] at hi; omega)
      (fun n hn => hsizes n (List.mem_cons_of_mem _ hn)) (by simp [hlen])
      (by simp [hcars, RpcTestBase.expectedFrom])
      (by
        intro j hj
        apply hresp
        simp only [List.length_cons]
        omega)
    simp only [RpcTestBase.DoTestSidecar.loop, hidx,
      GetSidecarPointer_at controller i (toInt size) _ hlt hget, hsz, if_true, List.take_length]
    constructor
    · simp [TestStep.holds, hcount, Status.ok, Status.OK, hsz, h1]
    · simp [TestStep.isCompare, h2, RpcTestBase.expectedFrom]

/-! ### Calls through the transport -/

/-- `Handle` on the method name "SendStrings" runs `DoSendStrings`. -/
theorem Handle_SendStrings (env : Env) (param : Slice) :
    Handle env ⟨kSendStringsMethodName, param⟩ =
      DoSendStrings env ⟨kSendStringsMethodName, param⟩ := by
  have h : Handle.method ⟨kSendStringsMethodName, param⟩ = some Method.DoSendStrings := by
    simp [Handle.method, kAddMethodName, kSleepMethodName, kSendStringsMethodName]
  simp [Handle, h]

/-- `Handle` on the method name "Add" runs `DoAdd`. -/
theorem Handle_Add (env : Env) (param : Slice) :
    Handle env ⟨kAddMethodName, param⟩ = DoAdd env ⟨kAddMethodName, param⟩ := by
  have h : Handle.method ⟨kAddMethodName, param⟩ = some Method.DoAdd := by
    simp [Handle.method]
  simp [Handle, h]

/-- A run whose one respond operation is a success is delivered as OK, with
the response message and the attached sidecars. -/
theorem deliver_success (run : List Effect) (resp : ResponsePB)
    (h : run.filter Effect.isRespond = [Effect.RespondSuccess resp]) :
    deliver run = (Status.OK, resp, ⟨attachedSidecars run⟩) := by
  simp [deliver, find?_of_filter_eq_singleton Effect.isRespond _ run h]

/-- A run whose one respond operation is a failure is delivered as not OK. -/
theorem deliver_failure (run : List Effect) (error_code : Option ErrorStatusPB)
    (status : Status)
    (h : run.filter Effect.isRespond = [Effect.RespondFailure error_code status]) :
    (deliver run).1.ok = false := by
  simp [deliver, find?_of_filter_eq_singleton Effect.isRespond _ run h, Status.ok]

/-- `DoTestSidecar` reads no sidecar and compares nothing when the status the
proxy returned is not OK. -/
theorem RpcTestBase.DoTestSidecar_not_ok (gen : RandomGen) (size_bits : Nat) (p : Proxy)
    (sizes : List Nat) (expected_code : StatusCode)
    (h : (p.SyncRequest kSendStringsMethodName (RequestPB.SendStrings
      ⟨RpcTestBase.kSeed, sizes.map fun size => size % 2 ^ size_bits⟩)).1.ok = false) :
    (RpcTestBase.DoTestSidecar gen size_bits p sizes expected_code).any
      TestStep.readsSidecar = false ∧
    (RpcTestBase.DoTestSidecar gen size_bits p sizes expected_code).any
      TestStep.isCompare = false := by
  unfold RpcTestBase.DoTestSidecar
  simp only [h]
  split_ifs with h1 h2
  · simp [TestStep.readsSidecar, TestStep.isCompare]
  · simp [TestStep.readsSidecar, TestStep.isCompare]
  · simp at h2

/-- On a payload that parses, `DoSendStrings` is its loop from a fresh
generator, with no sidecar attached and no index added yet. -/
theorem DoSendStrings_of_parse (env : Env) (incoming : InboundCall) (s : Nat) (L : List Nat)
    (hparse : env.pb.parseSendStrings incoming.serialized_request = some ⟨s, L⟩) :
    DoSendStrings env incoming = DoSendStrings.loop env L (env.rng.Random s) [] [] := by
  simp [DoSendStrings, hparse]

/-- Against a transport that accepts every sidecar, every `AddRpcSidecar` call
of the loop succeeds. -/
theorem DoSendStrings.loop_statuses_ok (env : Env)
    (haccept : ∀ sidecars_ car, (env.sidecarPolicy sidecars_ car).ok = true)
    (sizes : List Nat) :
    ∀ (r : env.rng.State) (sidecars_ : List Slice) (resp_sidecars : List Nat),
      ∀ st ∈ sidecarStatuses (DoSendStrings.loop env sizes r sidecars_ resp_sidecars),
        st.ok = true := by
  induction sizes with
  | nil =>
    intro r sidecars_ resp_sidecars st hst
    simp [DoSendStrings.loop, sidecarStatuses] at hst
  | cons size rest ih =>
    intro r sidecars_ resp_sidecars st hst
    rw [DoSendStrings.loop_cons_ok env size rest r sidecars_ resp_sidecars
      (haccept _ _)] at hst
    simp only [sidecarStatuses, List.filterMap_cons, List.mem_cons] at hst
    rcases hst with h | h
    · rw [h]
      exact haccept _ _
    · exact ih _ _ _ st h

/-- The run of `DoTestSidecar` against a service that parses the request as
sent and attaches every sidecar: the status is OK and the loop reads the
regenerated strings under the indices in order. -/
theorem RpcTestBase.DoTestSidecar_delivered (env : Env) (size_bits : Nat) (L : List Nat)
    (hfit : ∀ size ∈ L, size < 2 ^ size_bits)
    (hparse : env.pb.parseSendStrings
      (env.pb.serialize (RequestPB.SendStrings ⟨RpcTestBase.kSeed, L⟩)) =
      some ⟨RpcTestBase.kSeed, L⟩)
    (hsucc : ∀ st ∈ sidecarStatuses
      (DoSendStrings.loop env L (env.rng.Random RpcTestBase.kSeed) [] []), st.ok = true) :
    RpcTestBase.DoTestSidecar env.rng size_bits (Proxy.toGeneric env) L StatusCode.OK =
      TestStep.AssertEqCode StatusCode.OK StatusCode.OK ::
        RpcTestBase.DoTestSidecar.loop env.rng (List.range L.length)
          ⟨RpcTestBase.expectedStrings env.rng RpcTestBase.kSeed L⟩ 0 L
          (env.rng.Random RpcTestBase.kSeed) := by
  have hmap : (L.map fun size => size % 2 ^ size_bits) = L := by
    have : ∀ size ∈ L, size % 2 ^ size_bits = size :=
      fun size hsize => Nat.mod_eq_of_lt (hfit size hsize)
    simpa using List.map_congr_left this
  obtain ⟨h1, _, h3⟩ :=
    DoSendStrings.loop_all_ok env L (env.rng.Random RpcTestBase.kSeed) [] [] hsucc
  have hrun := DoSendStrings_of_parse env
    ⟨kSendStringsMethodName, env.pb.serialize (RequestPB.SendStrings ⟨RpcTestBase.kSeed, L⟩)⟩
    RpcTestBase.kSeed L hparse
  have hcall : (Proxy.toGeneric env).SyncRequest kSendStringsMethodName
      (RequestPB.SendStrings ⟨RpcTestBase.kSeed, L.map fun size => size % 2 ^ size_bits⟩) =
      (Status.OK, ResponsePB.SendStrings (List.range L.length),
        ⟨RpcTestBase.expectedStrings env.rng RpcTestBase.kSeed L⟩) := by
    simp only [Proxy.toGeneric]
    rw [hmap, Handle_SendStrings, hrun,
      deliver_success _ (ResponsePB.SendStrings (List.range L.length))
        (by rw [h1]; simp [List.range_eq_range']), h3]
    rfl
  unfold RpcTestBase.DoTestSidecar
  simp only [hcall]
  simp [Status.OK, Status.ok, ResponsePB.sidecars]

/-- The driver loop on the single size 2^31 stops at the `CHECK_EQ` of
`GetSidecarPointer`, before any byte comparison. -/
theorem RpcTestBase.DoTestSidecar.loop_size_two_pow_31 (gen : RandomGen) (rng : gen.State) :
    RpcTestBase.DoTestSidecar.loop gen (List.range 1)
        ⟨RpcTestBase.expectedFrom gen [2147483648] rng⟩ 0 [2147483648] rng =
      [TestStep.SidecarsAt 0 1, TestStep.CheckOk Status.OK,
        TestStep.CheckEqSize (toInt 2147483648) 2147483648] := by
  have hidx : (List.range 1)[0]? = some 0 := by decide
  have hget : (⟨RpcTestBase.expectedFrom gen [2147483648] rng⟩ : RpcController).sidecars[0]? =
      some (gen.RandomString 2147483648 rng).1 := by
    simp [RpcTestBase.expectedFrom]
  have hne : ¬ toSizeT (toInt 2147483648) = (gen.RandomString 2147483648 rng).1.length := by
    rw [gen.RandomString_size]
    decide
  have hgot := GetSidecarPointer_at ⟨RpcTestBase.expectedFrom gen [2147483648] rng⟩ 0
    (toInt 2147483648) _ (by decide) hget
  have hne2 : ¬ toSizeT (toInt 2147483648) = 2147483648 := by decide
  simp only [RpcTestBase.DoTestSidecar.loop, hidx, hgot, if_neg hne, List.length_range,
    gen.RandomString_size, if_neg hne2]

/-! ### Sidecars -/

/-- C1, amended: for every seed `s` and every list of sizes `L`, if every
`AddRpcSidecar` call succeeds then `DoSendStrings` responds success with
exactly `|L|` sidecar indices in request order, the i-th attached buffer has
length `L[i]` and its bytes are those of the i-th string `DoTestSidecar`
regenerates from a fresh `Random(s)` with the sizes `L[0], L[1], ...` in the
same order.  Hence, when the call is the one `DoTestSidecar` issues (sizes
representable in the request's size field, which is `size_bits` wide), no byte
comparison that `DoTestSidecar` evaluates fails; and when every size is below
2^31 and there are at most 2^31 sizes, the range of the `int` parameters of
`GetSidecarPointer`, it evaluates the comparison at every position, where it
holds, and passes every step. -/
theorem sidecar_round_trip (env : Env) (size_bits : Nat) (incoming : InboundCall)
    (s : Nat) (L : List Nat)
    (hparse : env.pb.parseSendStrings incoming.serialized_request = some ⟨s, L⟩)
    (hsucc : ∀ st ∈ sidecarStatuses (DoSendStrings env incoming), st.ok = true) :
    (DoSendStrings env incoming).filter Effect.isRespond =
      [Effect.RespondSuccess (ResponsePB.SendStrings (List.range L.length))] ∧
    generatedSizes (DoSendStrings env incoming) = L ∧
    attachedSidecars (DoSendStrings env incoming) = RpcTestBase.expectedStrings env.rng s L ∧
    (attachedSidecars (DoSendStrings env incoming)).map List.length = L ∧
    deliver (DoSendStrings env incoming) =
      (Status.OK, ResponsePB.SendStrings (List.range L.length),
        ⟨RpcTestBase.expectedStrings env.rng s L⟩) ∧
    (incoming = ⟨kSendStringsMethodName, env.pb.serialize (RequestPB.SendStrings
        ⟨RpcTestBase.kSeed, L.map fun size => size % 2 ^ size_bits⟩)⟩ →
      s = RpcTestBase.kSeed → (∀ size ∈ L, size < 2 ^ size_bits) →
      (∀ step ∈ RpcTestBase.DoTestSidecar env.rng size_bits (Proxy.toGeneric env) L
          StatusCode.OK, step.isCompare = true → step.holds = true) ∧
      ((∀ size ∈ L, size < 2 ^ 31) → L.length ≤ 2 ^ 31 →
        (RpcTestBase.DoTestSidecar env.rng size_bits (Proxy.toGeneric env) L
          StatusCode.OK).all TestStep.holds = true ∧
        (RpcTestBase.DoTestSidecar env.rng size_bits (Proxy.toGeneric env) L
          StatusCode.OK).filter TestStep.isCompare =
          (List.enum (RpcTestBase.expectedStrings env.rng RpcTestBase.kSeed L)).map
            fun e => TestStep.AssertEqCompare e.1 e.2 e.2)) := by
  have hrun : DoSendStrings env incoming =
      DoSendStrings.loop env L (env.rng.Random s) [] [] := by
    simp [DoSendStrings, hparse]
  rw [hrun] at hsucc
  obtain ⟨h1, h2, h3⟩ := DoSendStrings.loop_all_ok env L (env.rng.Random s) [] [] hsucc
  have h1r : (DoSendStrings env incoming).filter Effect.isRespond =
      [Effect.RespondSuccess (ResponsePB.SendStrings (List.range L.length))] := by
    rw [hrun, h1]
    simp [List.range_eq_range']
  have h3r : attachedSidecars (DoSendStrings env incoming) =
      RpcTestBase.expectedStrings env.rng s L := by
    rw [hrun, h3]
    rfl
  have hdel : deliver (DoSendStrings env incoming) =
      (Status.OK, ResponsePB.SendStrings (List.range L.length),
        ⟨RpcTestBase.expectedStrings env.rng s L⟩) := by
    rw [deliver_success _ _ h1r, h3r]
  refine ⟨h1r, by rw [hrun, h2], h3r, ?_, hdel, ?_⟩
  · rw [h3r]
    exact RpcTestBase.expectedFrom_sizes env.rng L _
  · intro hinc hseed hfit
    subst hseed
    have hmap : (L.map fun size => size % 2 ^ size_bits) = L := by
      have : ∀ size ∈ L, size % 2 ^ size_bits = size :=
        fun size hsize => Nat.mod_eq_of_lt (hfit size hsize)
      simpa using List.map_congr_left this
    have hcall : (Proxy.toGeneric env).SyncRequest kSendStringsMethodName
        (RequestPB.SendStrings ⟨RpcTestBase.kSeed, L.map fun size => size % 2 ^ size_bits⟩) =
        (Status.OK, ResponsePB.SendStrings (List.range L.length),
          ⟨RpcTestBase.expectedStrings env.rng RpcTestBase.kSeed L⟩) := by
      simp only [Proxy.toGeneric]
      rw [Handle_SendStrings, ← hinc]
      exact hdel
    have hsteps : RpcTestBase.DoTestSidecar env.rng size_bits (Proxy.toGeneric env) L
        StatusCode.OK =
        TestStep.AssertEqCode StatusCode.OK StatusCode.OK ::
          RpcTestBase.DoTestSidecar.loop env.rng (List.range L.length)
            ⟨RpcTestBase.expectedStrings env.rng RpcTestBase.kSeed L⟩ 0 L
            (env.rng.Random RpcTestBase.kSeed) := by
      unfold RpcTestBase.DoTestSidecar
      simp only [hcall]
      simp [Status.OK, Status.ok, ResponsePB.sidecars]
    have hresp : ∀ j, j < 0 + L.length → (List.range L.length)[j]? = some j := by
      intro j hj
      exact List.getElem?_range (by omega)
    constructor
    · intro step hstep hcmp
      rw [hsteps] at hstep
      rcases List.mem_cons.mp hstep with h | h
      · subst h
        simp [TestStep.isCompare] at hcmp
      · exact RpcTestBase.DoTestSidecar.loop_compares_hold env.rng (List.range L.length)
          ⟨RpcTestBase.expectedStrings env.rng RpcTestBase.kSeed L⟩ L 0
          (env.rng.Random RpcTestBase.kSeed) [] (by omega) rfl (by simp [RpcTestBase.expectedStrings])
          hresp step h hcmp
    · intro hint hlen
      obtain ⟨p1, p2⟩ := RpcTestBase.DoTestSidecar.loop_passes env.rng (List.range L.length)
        ⟨RpcTestBase.expectedStrings env.rng RpcTestBase.kSeed L⟩ L 0
        (env.rng.Random RpcTestBase.kSeed) [] (by omega) hint rfl
        (by simp [RpcTestBase.expectedStrings]) hresp
      rw [hsteps]
      constructor
      · simp only [List.all_cons, p1, TestStep.holds]
        decide
      · rw [List.filter_cons_of_neg (by simp [TestStep.isCompare]), p2]
        rfl

/-- C1, the claim as stated fails: for the single size 2^31, which fits the
64-bit size field, against a transport that accepts every sidecar and a wire
encoding that carries the request intact, `DoSendStrings` attaches its sidecar
and responds success, yet `DoTestSidecar` stops at the `CHECK_EQ` of
`GetSidecarPointer`, whose `int` parameter does not hold the size: no byte
comparison is evaluated at position 0 and the run does not pass. -/
theorem DoTestSidecar_stops_at_size_two_pow_31 :
    Sample.envWide.pb.parseSendStrings (Sample.envWide.pb.serialize
        (RequestPB.SendStrings ⟨RpcTestBase.kSeed, [2147483648]⟩)) =
      some ⟨RpcTestBase.kSeed, [2147483648]⟩ ∧
    (∀ size ∈ [2147483648], size < 2 ^ 64) ∧
    (∀ st ∈ sidecarStatuses (DoSendStrings Sample.envWide
        ⟨kSendStringsMethodName, Sample.envWide.pb.serialize
          (RequestPB.SendStrings ⟨RpcTestBase.kSeed, [2147483648]⟩)⟩), st.ok = true) ∧
    (DoSendStrings Sample.envWide
        ⟨kSendStringsMethodName, Sample.envWide.pb.serialize
          (RequestPB.SendStrings ⟨RpcTestBase.kSeed, [2147483648]⟩)⟩).filter
        Effect.isRespond = [Effect.RespondSuccess (ResponsePB.SendStrings [0])] ∧
    RpcTestBase.DoTestSidecar Sample.envWide.rng 64 (Proxy.toGeneric Sample.envWide)
        [2147483648] StatusCode.OK =
      [TestStep.AssertEqCode StatusCode.OK StatusCode.OK, TestStep.SidecarsAt 0 1,
        TestStep.CheckOk Status.OK, TestStep.CheckEqSize (toInt 2147483648) 2147483648] ∧
    (RpcTestBase.DoTestSidecar Sample.envWide.rng 64 (Proxy.toGeneric Sample.envWide)
        [2147483648] StatusCode.OK).all TestStep.holds = false ∧
    (RpcTestBase.DoTestSidecar Sample.envWide.rng 64 (Proxy.toGeneric Sample.envWide)
        [2147483648] StatusCode.OK).any TestStep.isCompare = false := by
  have hparse : Sample.envWide.pb.parseSendStrings (Sample.envWide.pb.serialize
      (RequestPB.SendStrings ⟨RpcTestBase.kSeed, [2147483648]⟩)) =
      some ⟨RpcTestBase.kSeed, [2147483648]⟩ := by
    decide
  have hfit : ∀ size ∈ [2147483648], size < 2 ^ 64 := by
    decide
  have hsucc := DoSendStrings.loop_statuses_ok Sample.envWide (fun _ _ => rfl) [2147483648]
    (Sample.envWide.rng.Random RpcTestBase.kSeed) [] []
  have hrun := DoSendStrings_of_parse Sample.envWide
    ⟨kSendStringsMethodName, Sample.envWide.pb.serialize
      (RequestPB.SendStrings ⟨RpcTestBase.kSeed, [2147483648]⟩)⟩
    RpcTestBase.kSeed [2147483648] hparse
  have hsteps : RpcTestBase.DoTestSidecar Sample.envWide.rng 64 (Proxy.toGeneric Sample.envWide)
      [2147483648] StatusCode.OK =
      [TestStep.AssertEqCode StatusCode.OK StatusCode.OK, TestStep.SidecarsAt 0 1,
        TestStep.CheckOk Status.OK, TestStep.CheckEqSize (toInt 2147483648) 2147483648] := by
    rw [RpcTestBase.DoTestSidecar_delivered Sample.envWide 64 [2147483648] hfit hparse hsucc]
    exact congrArg (List.cons (TestStep.AssertEqCode StatusCode.OK StatusCode.OK))
      (RpcTestBase.DoTestSidecar.loop_size_two_pow_31 Sample.envWide.rng
        (Sample.envWide.rng.Random RpcTestBase.kSeed))
  refine ⟨hparse, hfit, ?_, ?_, hsteps, ?_, ?_⟩
  · rw [hrun]
    exact hsucc
  · rw [hrun]
    exact (DoSendStrings.loop_all_ok Sample.envWide [2147483648]
      (Sample.envWide.rng.Random RpcTestBase.kSeed) [] [] hsucc).1
  · rw [hsteps]
    decide
  · rw [hsteps]
    decide

/-- C1, amended, at the call `DoTestSidecar` issues for the sizes 2 and 3 against a
transport that accepts every sidecar: the strings regenerated from seed 12345
are [47, 0] and [192, 120, 163], and the driver passes every step. -/
theorem sidecar_round_trip_witness :
    attachedSidecars (DoSendStrings Sample.env ⟨"SendStrings", [3, 45, 2, 3]⟩) =
      RpcTestBase.expectedStrings Sample.gen 12345 [2, 3] ∧
    RpcTestBase.expectedStrings Sample.gen 12345 [2, 3] = [[47, 0], [192, 120, 163]] ∧
    (RpcTestBase.DoTestSidecar Sample.gen 64 (Proxy.toGeneric Sample.env) [2, 3]
      StatusCode.OK).all TestStep.holds = true :=
  ⟨(sidecar_round_trip Sample.env 64 ⟨"SendStrings", [3, 45, 2, 3]⟩ 12345 [2, 3]
      (by decide) (by decide)).2.2.1,
   by decide,
   (((sidecar_round_trip Sample.env 64 ⟨"SendStrings", [3, 45, 2, 3]⟩ 12345 [2, 3]
      (by decide) (by decide)).2.2.2.2.2 (by decide) (by decide) (by decide)).2
      (by decide) (by decide)).1⟩

/-- C10: if the `AddRpcSidecar` call at position `k` fails, `DoSendStrings`
responds with an `ERROR_APPLICATION` failure carrying that status, has
generated strings for the sizes up to position `k` only and attached exactly
the `k` buffers before it, makes no further `AddRpcSidecar` call and never
sends a success response; the transport hands the driver a status that is not
OK, and on such a status `DoTestSidecar` reads and compares no sidecar. -/
theorem SendStrings_stops_at_first_failure (env : Env) (incoming : InboundCall)
    (s : Nat) (L : List Nat) (k : Nat) (st : Status)
    (hparse : env.pb.parseSendStrings incoming.serialized_request = some ⟨s, L⟩)
    (hk : (sidecarStatuses (DoSendStrings env incoming))[k]? = some st)
    (hfail : st.ok = false) :
    k < L.length ∧
    (DoSendStrings env incoming).filter Effect.isRespond =
      [Effect.RespondFailure (some ErrorStatusPB.ERROR_APPLICATION) st] ∧
    (DoSendStrings env incoming).any Effect.isRespondSuccess = false ∧
    generatedSizes (DoSendStrings env incoming) = L.take (k + 1) ∧
    attachedSidecars (DoSendStrings env incoming) =
      (RpcTestBase.expectedStrings env.rng s L).take k ∧
    (attachedSidecars (DoSendStrings env incoming)).length = k ∧
    (sidecarStatuses (DoSendStrings env incoming)).length = k + 1 ∧
    (deliver (DoSendStrings env incoming)).1.ok = false ∧
    (∀ (gen : RandomGen) (size_bits : Nat) (p : Proxy) (sizes : List Nat)
        (expected_code : StatusCode),
      (p.SyncRequest kSendStringsMethodName (RequestPB.SendStrings
        ⟨RpcTestBase.kSeed, sizes.map fun size => size % 2 ^ size_bits⟩)).1.ok = false →
      (RpcTestBase.DoTestSidecar gen size_bits p sizes expected_code).any
        TestStep.readsSidecar = false ∧
      (RpcTestBase.DoTestSidecar gen size_bits p sizes expected_code).any
        TestStep.isCompare = false) := by
  have hrun : DoSendStrings env incoming =
      DoSendStrings.loop env L (env.rng.Random s) [] [] := by
    simp [DoSendStrings, hparse]
  rw [hrun] at hk
  obtain ⟨h0, h1, h2, h3, h4⟩ :=
    DoSendStrings.loop_fail_at env L k (env.rng.Random s) [] [] st hk hfail
  rw [← hrun] at h1 h2 h3 h4
  change attachedSidecars (DoSendStrings env incoming) =
    (RpcTestBase.expectedStrings env.rng s L).take k at h3
  have hlen : (RpcTestBase.expectedStrings env.rng s L).length = L.length := by
    have := congrArg List.length (RpcTestBase.expectedFrom_sizes env.rng L (env.rng.Random s))
    simpa [RpcTestBase.expectedStrings] using this
  refine ⟨h0, h1, ?_, h2, h3, ?_, h4, deliver_failure _ _ _ h1, ?_⟩
  · rw [Bool.eq_false_iff]
    intro hany
    obtain ⟨e, he, hsuccess⟩ := List.any_eq_true.mp hany
    have hmem : e ∈ (DoSendStrings env incoming).filter Effect.isRespond := by
      rw [List.mem_filter]
      refine ⟨he, ?_⟩
      cases e <;> simp_all [Effect.isRespond, Effect.isRespondSuccess]
    rw [h1, List.mem_singleton] at hmem
    subst hmem
    simp [Effect.isRespondSuccess] at hsuccess
  · rw [h3, List.length_take, hlen]
    omega
  · intro gen size_bits p sizes expected_code hnot
    exact RpcTestBase.DoTestSidecar_not_ok gen size_bits p sizes expected_code hnot

/-- C10 at the sizes 2, 3 and 1 against a transport that accepts two sidecars:
the third `AddRpcSidecar` call fails, two buffers are attached, and the
response is the failure carrying the ServiceUnavailable status. -/
theorem SendStrings_stops_at_first_failure_witness :
    (DoSendStrings Sample.envTwoSlices ⟨"SendStrings", [3, 45, 2, 3, 1]⟩).filter
        Effect.isRespond =
      [Effect.RespondFailure (some ErrorStatusPB.ERROR_APPLICATION)
        ⟨StatusCode.ServiceUnavailable, "All available sidecars already used", ""⟩] ∧
    attachedSidecars (DoSendStrings Sample.envTwoSlices ⟨"SendStrings", [3, 45, 2, 3, 1]⟩) =
      [[47, 0], [192, 120, 163]] :=
  ⟨(SendStrings_stops_at_first_failure Sample.envTwoSlices ⟨"SendStrings", [3, 45, 2, 3, 1]⟩
      12345 [2, 3, 1] 2
      ⟨StatusCode.ServiceUnavailable, "All available sidecars already used", ""⟩
      (by decide) (by decide) (by decide)).2.1,
   by decide⟩

/-! ### Exactly one response -/

/-- C3: for every call whose payload parses, the raw dispatcher (`Handle` with
`DoAdd`, `DoSleep`, `DoSendStrings` and the unknown-method branch) issues
exactly one respond operation, and so does every typed handler other than
Panic: Add, Sleep on each of its four branches (the deferred one responds from
the detached thread), Echo, WhoAmI, TestArgumentsInDiffPackage, Ping,
Disconnect, and Forward when the messenger is still alive. -/
theorem exactly_one_response (env : Env) (incoming : InboundCall) (net : Network)
    (self : CalculatorService) (context : RpcContext) (bits now : Nat)
    (add_req : AddRequestPB) (sleep_req : SleepRequestPB) (data : String)
    (forward_req : ForwardRequestPB)
    (hparses : payloadParses env incoming = true)
    (halive : self.messenger_.isSome = true) :
    respondCount (Handle env incoming) = 1 ∧
    respondCount (CalculatorService.Add bits add_req context) = 1 ∧
    respondCount (CalculatorService.Sleep sleep_req context) = 1 ∧
    respondCount (CalculatorService.Echo data context) = 1 ∧
    respondCount (CalculatorService.WhoAmI context) = 1 ∧
    respondCount (CalculatorService.TestArgumentsInDiffPackage context) = 1 ∧
    respondCount (CalculatorService.Ping now context) = 1 ∧
    respondCount (CalculatorService.Disconnect context) = 1 ∧
    respondCount (CalculatorService.Forward net self forward_req context) = 1 := by
  refine ⟨?_, rfl, ?_, rfl, rfl, rfl, rfl, rfl, ?_⟩
  · unfold payloadParses at hparses
    unfold Handle
    cases hm : Handle.method incoming with
    | none => simp [respondCount, Effect.isRespond]
    | some m =>
      rw [hm] at hparses
      cases m with
      | DoAdd =>
        obtain ⟨req, hreq⟩ := Option.isSome_iff_exists.mp hparses
        simp [DoAdd, hreq, respondCount, Effect.isRespond]
      | DoSleep =>
        obtain ⟨req, hreq⟩ := Option.isSome_iff_exists.mp hparses
        simp [DoSleep, hreq, respondCount, Effect.isRespond]
      | DoSendStrings =>
        obtain ⟨req, hreq⟩ := Option.isSome_iff_exists.mp hparses
        simp only [DoSendStrings, hreq]
        exact DoSendStrings.loop_respondCount env req.sizes _ _ _
  · unfold CalculatorService.Sleep CalculatorService.DoSleep
    split_ifs <;> simp [respondCount, Effect.isRespond]
  · obtain ⟨messenger, hmessenger⟩ := Option.isSome_iff_exists.mp halive
    unfold CalculatorService.Forward
    rw [hmessenger]
    split_ifs
    · simp [respondCount, Effect.isRespond]
    · cases hparse : net.from_string (forward_req.host.getD "") with
      | error ec => simp [respondCount, Effect.isRespond]
      | ok address =>
        simp only []
        split_ifs <;> simp [respondCount, Effect.isRespond]

/-- C3 at a SendStrings call the transport cuts short after two sidecars, a
deferred Sleep, and a Forward to a reachable target. -/
theorem exactly_one_response_witness :
    respondCount (Handle Sample.envTwoSlices ⟨"SendStrings", [3, 45, 2, 3, 1]⟩) = 1 ∧
    respondCount (CalculatorService.Sleep ⟨500, true, false, false⟩ Sample.context) = 1 ∧
    respondCount (CalculatorService.Forward Sample.net ⟨"first", some ⟨"m"⟩⟩
      ⟨some "127.0.0.1", some 9000⟩ Sample.context) = 1 :=
  ⟨(exactly_one_response Sample.envTwoSlices ⟨"SendStrings", [3, 45, 2, 3, 1]⟩ Sample.net
      ⟨"first", some ⟨"m"⟩⟩ Sample.context 32 0 ⟨1, 2⟩ ⟨500, true, false, false⟩ "data"
      ⟨some "127.0.0.1", some 9000⟩ (by decide) rfl).1,
   (exactly_one_response Sample.envTwoSlices ⟨"SendStrings", [3, 45, 2, 3, 1]⟩ Sample.net
      ⟨"first", some ⟨"m"⟩⟩ Sample.context 32 0 ⟨1, 2⟩ ⟨500, true, false, false⟩ "data"
      ⟨some "127.0.0.1", some 9000⟩ (by decide) rfl).2.2.1,
   (exactly_one_response Sample.envTwoSlices ⟨"SendStrings", [3, 45, 2, 3, 1]⟩ Sample.net
      ⟨"first", some ⟨"m"⟩⟩ Sample.context 32 0 ⟨1, 2⟩ ⟨500, true, false, false⟩ "data"
      ⟨some "127.0.0.1", some 9000⟩ (by decide) rfl).2.2.2.2.2.2.2.2⟩

/-! ### Add -/

/-- C2, the claim as stated fails: with the 32-bit fields the driver fills,
`Add(4294967295, 1)` returns 0 from the raw handler and from the typed one,
not the sum 4294967296. -/
theorem Add_wraps_at_32_bits :
    Sample.env.bits = 32 ∧
    Sample.pb.parseAdd [1, 255, 255, 255, 255, 1, 0, 0, 0] = some ⟨4294967295, 1⟩ ∧
    DoAdd Sample.env ⟨"Add", [1, 255, 255, 255, 255, 1, 0, 0, 0]⟩ =
      [Effect.RespondSuccess (ResponsePB.Add 0)] ∧
    CalculatorService.Add 32 ⟨4294967295, 1⟩ Sample.context =
      [Effect.RespondSuccess (ResponsePB.Add 0)] ∧
    (0 : Nat) ≠ 4294967295 + 1 := by
  decide

/-- C2, amended: for all operands `x` and `y`, both the raw `DoAdd` (on a
parseable request) and the typed `CalculatorService::Add` respond with success
and result `(x + y) mod 2^bits`, `bits` being the width of the unsigned
request and response fields; that is `x + y` whenever the sum fits the field.
The driver's check in `DoTestSyncCall`, computed in the same arithmetic, holds
for every pair of operands, pairs whose sum exceeds the field included. -/
theorem Add_returns_sum_modulo_field_width (env : Env) (incoming : InboundCall)
    (x y : Nat) (context : RpcContext)
    (hparse : env.pb.parseAdd incoming.serialized_request = some ⟨x, y⟩) :
    DoAdd env incoming = [Effect.RespondSuccess (ResponsePB.Add ((x + y) % 2 ^ env.bits))] ∧
    CalculatorService.Add env.bits ⟨x, y⟩ context =
      [Effect.RespondSuccess (ResponsePB.Add ((x + y) % 2 ^ env.bits))] ∧
    (x + y < 2 ^ env.bits →
      DoAdd env incoming = [Effect.RespondSuccess (ResponsePB.Add (x + y))] ∧
      CalculatorService.Add env.bits ⟨x, y⟩ context =
        [Effect.RespondSuccess (ResponsePB.Add (x + y))]) ∧
    (incoming = ⟨kAddMethodName, env.pb.serialize (RequestPB.Add ⟨x, y⟩)⟩ →
      RpcTestBase.DoTestSyncCall env.bits (Proxy.toGeneric env) kAddMethodName x y =
        [TestStep.CheckEqSum ((x + y) % 2 ^ env.bits) ((x + y) % 2 ^ env.bits)] ∧
      (RpcTestBase.DoTestSyncCall env.bits (Proxy.toGeneric env) kAddMethodName x y).all
        TestStep.holds = true) ∧
    RpcTestBase.DoTestSyncCall env.bits (Proxy.toCalculator env.bits context)
        kAddMethodName x y =
      [TestStep.CheckEqSum ((x + y) % 2 ^ env.bits) ((x + y) % 2 ^ env.bits)] ∧
    (RpcTestBase.DoTestSyncCall env.bits (Proxy.toCalculator env.bits context)
      kAddMethodName x y).all TestStep.holds = true := by
  have hraw : DoAdd env incoming =
      [Effect.RespondSuccess (ResponsePB.Add ((x + y) % 2 ^ env.bits))] := by
    simp [DoAdd, hparse]
  have htyped : RpcTestBase.DoTestSyncCall env.bits (Proxy.toCalculator env.bits context)
      kAddMethodName x y =
      [TestStep.CheckEqSum ((x + y) % 2 ^ env.bits) ((x + y) % 2 ^ env.bits)] := by
    simp [RpcTestBase.DoTestSyncCall, Proxy.toCalculator, CalculatorService.Add, deliver,
      Effect.isRespond, Status.ok, Status.OK, ResponsePB.result]
  refine ⟨hraw, rfl, ?_, ?_, htyped, ?_⟩
  · intro hfits
    rw [hraw]
    simp [CalculatorService.Add, Nat.mod_eq_of_lt hfits]
  · intro hinc
    have hcall : (Proxy.toGeneric env).SyncRequest kAddMethodName (RequestPB.Add ⟨x, y⟩) =
        (Status.OK, ResponsePB.Add ((x + y) % 2 ^ env.bits),
          ⟨attachedSidecars (DoAdd env incoming)⟩) := by
      simp only [Proxy.toGeneric]
      rw [Handle_Add, ← hinc]
      exact deliver_success _ _ (by rw [hraw]; rfl)
    have hsteps : RpcTestBase.DoTestSyncCall env.bits (Proxy.toGeneric env) kAddMethodName
        x y = [TestStep.CheckEqSum ((x + y) % 2 ^ env.bits) ((x + y) % 2 ^ env.bits)] := by
      unfold RpcTestBase.DoTestSyncCall
      simp only [hcall]
      simp [Status.ok, Status.OK, ResponsePB.result]
    rw [hsteps]
    exact ⟨rfl, by simp [TestStep.holds]⟩
  · rw [htyped]
    simp [TestStep.holds]

/-- C2, amended, at the operands 4294967295 and 1 with 32-bit fields: the
response carries 0 and the driver's check compares 0 with 0. -/
theorem Add_returns_sum_modulo_field_width_witness :
    DoAdd Sample.env ⟨"Add", [1, 255, 255, 255, 255, 1, 0, 0, 0]⟩ =
      [Effect.RespondSuccess (ResponsePB.Add 0)] ∧
    RpcTestBase.DoTestSyncCall 32 (Proxy.toGeneric Sample.env) "Add" 4294967295 1 =
      [TestStep.CheckEqSum 0 0] :=
  ⟨(Add_returns_sum_modulo_field_width Sample.env
      ⟨"Add", [1, 255, 255, 255, 255, 1, 0, 0, 0]⟩ 4294967295 1 Sample.context
      (by decide)).1,
   ((Add_returns_sum_modulo_field_width Sample.env
      ⟨"Add", [1, 255, 255, 255, 255, 1, 0, 0, 0]⟩ 4294967295 1 Sample.context
      (by decide)).2.2.2.1 (by decide)).1⟩

end yb.rpc
